import Mathlib

/-!
# Verification of the Gutachten savings-plan simulator

Shallow embedding of the portfolio state machine of
`SparplanSimulator_250819.py` (the flagship variant), together with the
per-tranche sale-tax computation of the `Gutachten.py` variant where the
two differ.  Monetary amounts and rates are embedded as exact rationals
(`ℚ`): every Python float literal is a rational, and the float arithmetic
of the source is idealised as exact rational arithmetic.  The one
irrational quantity of the source, `(1 + annual_return) ** (1/12) - 1`,
has no rational counterpart, so the initialisation function receives the
already-computed monthly rate as an argument.
-/

/-- Small threshold `1e-9` used by the source for loop exits and for
pruning near-empty lots. -/
def eps : ℚ := 1 / 1000000000

/-- One investment tranche (a `portfolio` entry of the Python source).
`date` is the month index since 2025-01 (all dates created by the
simulator are firsts of months). `vorab` is the already-taxed accrual
`vorabpauschalen_bereits_versteuert`. -/
structure Lot where
  date : ℕ
  amount_invested : ℚ
  value : ℚ
  start_of_prev_year_value : ℚ
  vorab : ℚ
  deriving Repr, DecidableEq

/-- Withdrawal mode (`entnahme_modus`); the source compares a string with
the two literals, any other string selecting neither branch. -/
inductive EntnahmeModus where
  | jaehrlich
  | monatlich
  | keine
  deriving Repr, DecidableEq

/-- The `SparplanParameter` dataclass.  Integer-typed fields of the
source are `ℕ`, floats are `ℚ`.  `sonderzahlung_jahr` is a float in the
source.  The two derived fields `monthly_return` and `full_tax_rate` do
not exist at construction in Python (they are attached to the params
object by `_initialisiere_simulation`); here they are ordinary fields
defaulting to 0 and set by `initialisiereParams`. -/
structure Params where
  versicherung_modus : Bool
  eintrittsalter : ℕ
  initial_investment : ℚ
  monthly_investment : ℚ
  laufzeit : ℕ
  beitragszahldauer : ℕ
  monthly_dynamik_rate : ℚ
  dynamik_turnus_monate : ℕ
  sonderzahlung_jahr : ℚ
  sonderzahlung_betrag : ℚ
  regel_sonderzahlung_betrag : ℚ
  regel_sonderzahlung_turnus_jahre : ℕ
  annual_withdrawal : ℚ
  entnahme_plan : List (ℤ × ℚ)
  entnahme_modus : EntnahmeModus
  annual_return : ℚ
  ausgabeaufschlag : ℚ
  ruecknahmeabschlag : ℚ
  ter : ℚ
  serviceentgelt : ℚ
  stueckkosten : ℚ
  abschlusskosten_einmalig_prozent : ℚ
  abschlusskosten_monatlich_prozent : ℚ
  verrechnungsdauer_monate : ℕ
  verwaltungskosten_monatlich_prozent : ℚ
  guthabenkosten : ℚ
  abgeltungssteuer_rate : ℚ
  soli_zuschlag_on_abgeltungssteuer : ℚ
  kirchensteuer_on_abgeltungssteuer : ℚ
  persoenlicher_steuersatz : ℚ
  freistellungsauftrag_jahr : ℚ
  teilfreistellung : ℚ
  basiszins : ℚ
  rebalancing_rate : ℚ
  bewertungsdauer : ℕ
  inflation_rate : ℚ
  inflation_volatility : ℚ
  freistellungs_pauschbetrag_anpassung_rate : ℚ
  monthly_return : ℚ := 0
  full_tax_rate : ℚ := 0

/-! ## Annual accrual tax (Vorabpauschale), `_handle_taxes`, January, Depot mode

The per-lot quantities of `SparplanSimulator_250819.py` lines 377-405. -/

/-- `fiktiver_ertrag = start_value * basiszins`. -/
def fiktiverErtrag (p : Params) (lot : Lot) : ℚ :=
  lot.start_of_prev_year_value * p.basiszins

/-- `real_ertrag = entry["value"] - start_value`. -/
def realErtrag (lot : Lot) : ℚ :=
  lot.value - lot.start_of_prev_year_value

/-- `steuerbarer_ertrag = min(fiktiver_ertrag, real_ertrag)`. -/
def steuerbarerErtrag (p : Params) (lot : Lot) : ℚ :=
  min (fiktiverErtrag p lot) (realErtrag lot)

/-- `zu_versteuern_temp = steuerbarer_ertrag * (1 - teilfreistellung)`. -/
def zuVersteuernTemp (p : Params) (lot : Lot) : ℚ :=
  steuerbarerErtrag p lot * (1 - p.teilfreistellung)

/-- `steuerfreibetrag_used = min(freistellungs_topf, max(0, zu_versteuern_temp))`. -/
def vorabFreibetragUsed (p : Params) (topf : ℚ) (lot : Lot) : ℚ :=
  min topf (max 0 (zuVersteuernTemp p lot))

/-- `zu_versteuern = max(0, zu_versteuern_temp - steuerfreibetrag_used)`. -/
def vorabZuVersteuern (p : Params) (topf : ℚ) (lot : Lot) : ℚ :=
  max 0 (zuVersteuernTemp p lot - vorabFreibetragUsed p topf lot)

/-- `steuer = zu_versteuern * full_tax_rate`. -/
def vorabSteuer (p : Params) (topf : ℚ) (lot : Lot) : ℚ :=
  vorabZuVersteuern p topf lot * p.full_tax_rate

/-- Threaded state of the January accrual-tax loop: the allowance bucket,
the running tax counters and the cash-flow log entries touched by
`_handle_taxes`. -/
structure AccSt where
  topf : ℚ
  total_tax_paid : ℚ
  total_tax_paid_real : ℚ
  cashflows : List ℚ
  real_cashflows : List ℚ
  cashflow_dates : List ℕ
  deriving Repr, DecidableEq

/-- One lot of the January accrual-tax loop (`_handle_taxes`, lines
378-405): the allowance is consumed unconditionally, while the value
deduction, the accrual note and the counters happen only under the
`if steuer > 0` guard. -/
def accrualLotStep (p : Params) (inflFactor : ℚ) (month : ℕ) (st : AccSt)
    (lot : Lot) : Lot × AccSt :=
  let used := vorabFreibetragUsed p st.topf lot
  let zv := vorabZuVersteuern p st.topf lot
  let steuer := vorabSteuer p st.topf lot
  let st1 := { st with topf := st.topf - used }
  if 0 < steuer then
    ({ lot with value := lot.value - steuer, vorab := lot.vorab + zv },
     { st1 with
        total_tax_paid := st1.total_tax_paid + steuer
        total_tax_paid_real := st1.total_tax_paid_real + steuer / inflFactor
        cashflows := st1.cashflows ++ [-steuer]
        real_cashflows := st1.real_cashflows ++ [-steuer / inflFactor]
        cashflow_dates := st1.cashflow_dates ++ [month] })
  else
    (lot, st1)

/-- The accrual-tax loop over the whole ledger, in ledger order. -/
def accrualLoop (p : Params) (inflFactor : ℚ) (month : ℕ) :
    AccSt → List Lot → List Lot × AccSt
  | st, [] => ([], st)
  | st, lot :: rest =>
    let (lot', st') := accrualLotStep p inflFactor month st lot
    let (rest', st'') := accrualLoop p inflFactor month st' rest
    (lot' :: rest', st'')

/-! ## Calendar helpers

The insurance-mode sale tax divides a day difference by `365.25`; the
simulator's dates are all firsts of months starting at 2025-01-01, so a
Gregorian day count for month indices suffices. -/

/-- Gregorian leap-year rule, as implemented by Python's `datetime`. -/
def isLeapYear (y : ℕ) : Bool :=
  y % 4 == 0 && (y % 100 != 0 || y % 400 == 0)

/-- Days in month `m` (1-12) of year `y`. -/
def daysInMonth (y m : ℕ) : ℕ :=
  if m = 2 then (if isLeapYear y then 29 else 28)
  else if m = 4 ∨ m = 6 ∨ m = 9 ∨ m = 11 then 30
  else 31

/-- Days from 2025-01-01 to the first of month index `k`. -/
def daysFromStart : ℕ → ℕ
  | 0 => 0
  | k + 1 => daysFromStart k + daysInMonth (2025 + k / 12) (k % 12 + 1)

/-- `(d2 - d1).days` for the firsts of month indices `a ≤ b`. -/
def daysBetweenMonths (a b : ℕ) : ℤ :=
  (daysFromStart b : ℤ) - (daysFromStart a : ℤ)

/-! ## Withdrawal-plan lookup

`_handle_withdrawals` walks the plan keys in descending order and takes
the first entry whose year is not above the current withdrawal year. -/

/-- Insert a `(year, amount)` pair into a list sorted by year descending. -/
def insertDesc (x : ℤ × ℚ) : List (ℤ × ℚ) → List (ℤ × ℚ)
  | [] => [x]
  | y :: ys => if y.1 ≤ x.1 then x :: y :: ys else y :: insertDesc x ys

/-- Sort plan entries by year descending (`sorted(keys, reverse=True)`). -/
def sortPlanDesc : List (ℤ × ℚ) → List (ℤ × ℚ)
  | [] => []
  | x :: xs => insertDesc x (sortPlanDesc xs)

/-- First plan amount whose year is `≤` the withdrawal year, scanning
years in descending order; `0` when no entry applies. -/
def planLookup (plan : List (ℤ × ℚ)) (wy : ℤ) : ℚ :=
  match (sortPlanDesc plan).find? (fun kv => kv.1 ≤ wy) with
  | some kv => kv.2
  | none => 0

/-! ## The FIFO sale loop

Both `_handle_rebalancing` and `_handle_withdrawals` run the same queue
discipline (`while remaining > 1e-9 and portfolio: popleft; ...`); they
differ only in the per-tranche tax/bookkeeping step.  The loop below is
that shared discipline: it pops the oldest lot, drops lots with
non-positive value, sells `min(lot.value, remaining)`, lets the step
update `amount_invested`, `vorab` and the threaded state, keeps the lot
(before the untouched suffix) only when its residual value exceeds
`1e-9`, and stops once `remaining ≤ 1e-9`. -/

/-- Generic FIFO sale loop.  `step st lot sell` returns the new
`amount_invested`, the new `vorab` and the updated threaded state for a
sale of `sell` out of `lot`. -/
def fifoSellLoop {σ : Type} (step : σ → Lot → ℚ → ℚ × ℚ × σ)
    (remaining : ℚ) (st : σ) : List Lot → List Lot × σ
  | [] => ([], st)
  | lot :: rest =>
    if remaining ≤ eps then (lot :: rest, st)
    else if lot.value ≤ 0 then fifoSellLoop step remaining st rest
    else
      let sell := min lot.value remaining
      let s := step st lot sell
      let lot' := { lot with value := lot.value - sell, amount_invested := s.1, vorab := s.2.1 }
      let r := fifoSellLoop step (remaining - sell) s.2.2 rest
      ((if eps < lot'.value then [lot'] else []) ++ r.1, r.2)

/-- Threaded state of the withdrawal loop: the allowance bucket, the
summed net payout and the summed withdrawal tax. -/
structure WdState where
  topf : ℚ
  netto_summe : ℚ
  tax_summe : ℚ
  deriving Repr, DecidableEq

/-- Per-tranche step of `_handle_withdrawals` (lines 512-559 of
`SparplanSimulator_250819.py`).  In Depot mode the source computes
`steuerbarer_gewinn_nach_vp` and sizes the allowance from it, but then
charges `max(0, (steuerbarer_gewinn - steuerfreibetrag_used)) *
full_tax_rate` on the value `steuerbarer_gewinn` from before the
already-taxed accrual was subtracted; the embedding reproduces this
literally. -/
def withdrawStepSpar (p : Params) (month : ℕ) (st : WdState) (lot : Lot)
    (sell : ℚ) : ℚ × ℚ × WdState :=
  let anteil := sell / lot.value
  let gewinn_anteil := (lot.value - lot.amount_invested) * anteil
  let investiert_anteil := lot.amount_invested * anteil
  if p.versicherung_modus then
    let aktuelle_laufzeit : ℚ := (daysBetweenMonths lot.date month : ℚ) / (1461 / 4)
    let aktuelle_alter : ℚ := p.eintrittsalter + (daysBetweenMonths 0 month : ℚ) / (1461 / 4)
    let steuer :=
      if 62 ≤ aktuelle_alter ∧ 12 ≤ aktuelle_laufzeit then
        gewinn_anteil * (1 / 2) * p.persoenlicher_steuersatz
      else
        gewinn_anteil * (17 / 20) * p.persoenlicher_steuersatz
    let netto := sell - steuer - sell * p.ruecknahmeabschlag
    (lot.amount_invested - investiert_anteil, lot.vorab,
     { st with netto_summe := st.netto_summe + netto,
               tax_summe := st.tax_summe + steuer })
  else
    let vorabpauschalen_anteil := lot.vorab * anteil
    let steuerbarer_gewinn := gewinn_anteil * (1 - p.teilfreistellung)
    let steuerbarer_gewinn_nach_vp := max 0 (steuerbarer_gewinn - vorabpauschalen_anteil)
    let steuerfreibetrag_used := min st.topf steuerbarer_gewinn_nach_vp
    let steuer := max 0 ((steuerbarer_gewinn - steuerfreibetrag_used) * p.full_tax_rate)
    let netto := sell - steuer - sell * p.ruecknahmeabschlag
    (lot.amount_invested - investiert_anteil, lot.vorab - vorabpauschalen_anteil,
     { topf := st.topf - steuerfreibetrag_used,
       netto_summe := st.netto_summe + netto,
       tax_summe := st.tax_summe + steuer })

/-- Per-tranche Depot sale tax of the `Gutachten.py` variant (lines
541-550): identical to `withdrawStepSpar`'s Depot branch except that the
tax is charged on `steuerbarer_gewinn_nach_vp`, the gain from which the
consumed already-taxed accrual has been subtracted. -/
def withdrawSteuerGut (p : Params) (topf : ℚ) (lot : Lot) (sell : ℚ) : ℚ :=
  let anteil := sell / lot.value
  let gewinn_anteil := (lot.value - lot.amount_invested) * anteil
  let vorabpauschalen_anteil := lot.vorab * anteil
  let steuerbarer_gewinn := gewinn_anteil * (1 - p.teilfreistellung)
  let steuerbarer_gewinn_nach_vp := max 0 (steuerbarer_gewinn - vorabpauschalen_anteil)
  let steuerfreibetrag_used := min topf steuerbarer_gewinn_nach_vp
  max 0 (steuerbarer_gewinn_nach_vp - steuerfreibetrag_used) * p.full_tax_rate

/-- Threaded state of the rebalancing loop.  `solds` is a ghost trace
recording each tranche's sold value, used only to state the conservation
property; the remaining fields mirror the Python accumulators. -/
structure RebalState where
  topf : ℚ
  total_verkauf : ℚ
  total_steuer : ℚ
  total_netto : ℚ
  tax_paid : ℚ
  tax_paid_real : ℚ
  ruecknahme_summe : ℚ
  ruecknahme_real_summe : ℚ
  solds : List ℚ
  deriving Repr, DecidableEq

/-- `prop = sell_value / entry["value"]` of the rebalancing loop. -/
def rebalPropOf (lot : Lot) (sell : ℚ) : ℚ := sell / lot.value

/-- `gain = sell_value - cost_basis` of the rebalancing loop. -/
def rebalGainOf (lot : Lot) (sell : ℚ) : ℚ :=
  sell - lot.amount_invested * rebalPropOf lot sell

/-- `steuerbarer_gewinn = gain * (1 - teilfreistellung)`. -/
def rebalSteuerbarerGewinnOf (p : Params) (lot : Lot) (sell : ℚ) : ℚ :=
  rebalGainOf lot sell * (1 - p.teilfreistellung)

/-- `vorab_used = min(vorab * prop, steuerbarer_gewinn)`. -/
def rebalVorabUsedOf (p : Params) (lot : Lot) (sell : ℚ) : ℚ :=
  min (lot.vorab * rebalPropOf lot sell) (rebalSteuerbarerGewinnOf p lot sell)

/-- The reassigned `steuerbarer_gewinn = max(0, steuerbarer_gewinn - vorab_used)`. -/
def rebalSteuerbarerGewinn2Of (p : Params) (lot : Lot) (sell : ℚ) : ℚ :=
  max 0 (rebalSteuerbarerGewinnOf p lot sell - rebalVorabUsedOf p lot sell)

/-- `steuerfreibetrag = min(freistellungs_topf, steuerbarer_gewinn)`. -/
def rebalFreibetragOf (p : Params) (topf : ℚ) (lot : Lot) (sell : ℚ) : ℚ :=
  min topf (rebalSteuerbarerGewinn2Of p lot sell)

/-- `steuer = max(0, (steuerbarer_gewinn - steuerfreibetrag) * full_tax_rate)`:
unlike the withdrawal path, here the tax base has the consumed accrual
subtracted. -/
def rebalSteuerOf (p : Params) (topf : ℚ) (lot : Lot) (sell : ℚ) : ℚ :=
  max 0 ((rebalSteuerbarerGewinn2Of p lot sell - rebalFreibetragOf p topf lot sell) * p.full_tax_rate)

/-- Per-tranche step of `_handle_rebalancing` (lines 423-459 of
`SparplanSimulator_250819.py`), assembled from the component formulas
above. -/
def rebalStepSpar (p : Params) (inflFactor : ℚ) (st : RebalState) (lot : Lot)
    (sell : ℚ) : ℚ × ℚ × RebalState :=
  let steuer := rebalSteuerOf p st.topf lot sell
  let ruecknahmeabschlag := sell * p.ruecknahmeabschlag
  let netto_reinvest := sell - steuer - ruecknahmeabschlag
  (lot.amount_invested - lot.amount_invested * rebalPropOf lot sell,
   max 0 (lot.vorab - rebalVorabUsedOf p lot sell),
   { topf := st.topf - rebalFreibetragOf p st.topf lot sell,
     total_verkauf := st.total_verkauf + sell,
     total_steuer := st.total_steuer + steuer,
     total_netto := st.total_netto + netto_reinvest,
     tax_paid := st.tax_paid + steuer,
     tax_paid_real := st.tax_paid_real + steuer / inflFactor,
     ruecknahme_summe := st.ruecknahme_summe + ruecknahmeabschlag,
     ruecknahme_real_summe := st.ruecknahme_real_summe + ruecknahmeabschlag / inflFactor,
     solds := st.solds ++ [sell] })

/-! ## The simulator state -/

/-- Sum of `value` over a ledger. -/
def sumValues (l : List Lot) : ℚ := (l.map Lot.value).sum

/-- Sum of `amount_invested` over a ledger. -/
def sumInvested (l : List Lot) : ℚ := (l.map Lot.amount_invested).sum

/-- Sum of the already-taxed accruals over a ledger. -/
def sumVorab (l : List Lot) : ℚ := (l.map Lot.vorab).sum

/-- One row of `monatliche_kosten_logs`. -/
structure LogRow where
  datum : ℕ
  depotwert : ℚ
  depotwert_real : ℚ
  ausgabeaufschlag_kum : ℚ
  ausgabeaufschlag_kum_real : ℚ
  ruecknahmeabschlag_kum : ℚ
  ruecknahmeabschlag_kum_real : ℚ
  stueckkosten_kum : ℚ
  stueckkosten_kum_real : ℚ
  gesamtfondkosten_kum : ℚ
  gesamtfondkosten_kum_real : ℚ
  serviceentgelt_kum : ℚ
  serviceentgelt_kum_real : ℚ
  guthabenkosten_kum : ℚ
  guthabenkosten_kum_real : ℚ
  abschlusskosten_kum : ℚ
  abschlusskosten_kum_real : ℚ
  verwaltungskosten_kum : ℚ
  verwaltungskosten_kum_real : ℚ
  steuern_kumuliert : ℚ
  steuern_kumuliert_real : ℚ
  steuern_aus_entnahme : ℚ
  steuern_aus_entnahme_real : ℚ
  kumulierte_entnahmen : ℚ
  kumulierte_entnahmen_real : ℚ

/-- One row of `rebalancing_log`. -/
structure RebalRow where
  datum : ℕ
  bruttoverkauf : ℚ
  steuer : ℚ
  netto_reinvestiert : ℚ

/-- The full mutable state of a `SparplanSimulator` instance (all the
instance fields set in `__init__` other than the parameters and the
return/inflation inputs). -/
structure SimState where
  portfolio : List Lot
  rebalancing_log : List RebalRow
  monatliche_kosten_logs : List LogRow
  cashflows : List ℚ
  cashflow_dates : List ℕ
  real_cashflows : List ℚ
  ausgabeaufschlag_summe : ℚ
  ruecknahmeabschlag_summe : ℚ
  stueckkosten_summe : ℚ
  abschlusskosten_summe : ℚ
  verwaltungskosten_summe : ℚ
  guthabenkosten_summe : ℚ
  ter_summe : ℚ
  serviceentgelt_summe : ℚ
  kumulierte_entnahmen : ℚ
  total_tax_paid : ℚ
  total_withdrawal_tax_paid : ℚ
  ausgabeaufschlag_real_summe : ℚ
  ruecknahmeabschlag_real_summe : ℚ
  stueckkosten_real_summe : ℚ
  abschlusskosten_real_summe : ℚ
  verwaltungskosten_real_summe : ℚ
  guthabenkosten_real_summe : ℚ
  ter_real_summe : ℚ
  serviceentgelt_real_summe : ℚ
  kumulierte_entnahmen_real : ℚ
  total_tax_paid_real : ℚ
  total_withdrawal_tax_paid_real : ℚ
  freistellungs_topf : ℚ
  monthly_investment : ℚ
  abschlusskosten_rest : ℚ
  verwaltungskosten_rest : ℚ
  kumulierte_inflation_factor : ℚ

/-- Build the per-month log row from the current counters. -/
def mkLogRow (month : ℕ) (depotwert : ℚ) (st : SimState) : LogRow where
  datum := month
  depotwert := depotwert
  depotwert_real := depotwert / st.kumulierte_inflation_factor
  ausgabeaufschlag_kum := st.ausgabeaufschlag_summe
  ausgabeaufschlag_kum_real := st.ausgabeaufschlag_real_summe
  ruecknahmeabschlag_kum := st.ruecknahmeabschlag_summe
  ruecknahmeabschlag_kum_real := st.ruecknahmeabschlag_real_summe
  stueckkosten_kum := st.stueckkosten_summe
  stueckkosten_kum_real := st.stueckkosten_real_summe
  gesamtfondkosten_kum := st.ter_summe
  gesamtfondkosten_kum_real := st.ter_real_summe
  serviceentgelt_kum := st.serviceentgelt_summe
  serviceentgelt_kum_real := st.serviceentgelt_real_summe
  guthabenkosten_kum := st.guthabenkosten_summe
  guthabenkosten_kum_real := st.guthabenkosten_real_summe
  abschlusskosten_kum := st.abschlusskosten_summe
  abschlusskosten_kum_real := st.abschlusskosten_real_summe
  verwaltungskosten_kum := st.verwaltungskosten_summe
  verwaltungskosten_kum_real := st.verwaltungskosten_real_summe
  steuern_kumuliert := st.total_tax_paid
  steuern_kumuliert_real := st.total_tax_paid_real
  steuern_aus_entnahme := st.total_withdrawal_tax_paid
  steuern_aus_entnahme_real := st.total_withdrawal_tax_paid_real
  kumulierte_entnahmen := st.kumulierte_entnahmen
  kumulierte_entnahmen_real := st.kumulierte_entnahmen_real

/-- Proportional deduction `entry["value"] -= kosten * (entry["value"] / depotwert)`
applied to every lot. -/
def applyAnteiligeKosten (kosten depotwert : ℚ) (l : List Lot) : List Lot :=
  l.map (fun e => { e with value := e.value - kosten * (e.value / depotwert) })

/-- Uniform growth `entry["value"] *= (1 + r)` applied to every lot. -/
def applyGrowth (r : ℚ) (l : List Lot) : List Lot :=
  l.map (fun e => { e with value := e.value * (1 + r) })

/-- December snapshot `entry["start_of_prev_year_value"] = entry["value"]`. -/
def snapshotYearEnd (l : List Lot) : List Lot :=
  l.map (fun e => { e with start_of_prev_year_value := e.value })

/-! ## `_handle_monthly_investment` -/

/-- Savings-rate escalation (lines 263-265).  A `month % 0` escalation
interval would raise in Python; here `month % 0 = month > 0` makes the
branch unreachable, matching no run of the source. -/
def handleDynamik (p : Params) (month : ℕ) (st : SimState) : SimState :=
  if 0 < month ∧ month % p.dynamik_turnus_monate = 0 then
    { st with monthly_investment := st.monthly_investment * (1 + p.monthly_dynamik_rate) }
  else st

/-- One-off and recurring extra payments (lines 267-290). -/
def handleSonderzahlung (p : Params) (month : ℕ) (st : SimState) : SimState :=
  let is_einmalig := (month : ℚ) = p.sonderzahlung_jahr * 12
  let is_regelmaessig := 0 < p.regel_sonderzahlung_turnus_jahre ∧ 0 < month ∧
      month % (p.regel_sonderzahlung_turnus_jahre * 12) = 0
  if is_einmalig ∨ is_regelmaessig then
    let betrag := if is_einmalig then p.sonderzahlung_betrag else p.regel_sonderzahlung_betrag
    if 0 < betrag then
      let st := { st with cashflows := st.cashflows ++ [-betrag], real_cashflows := st.real_cashflows ++ [-betrag / st.kumulierte_inflation_factor], cashflow_dates := st.cashflow_dates ++ [month] }
      let netto := if p.versicherung_modus then betrag else betrag - betrag * p.ausgabeaufschlag
      let st :=
        if p.versicherung_modus then st
        else
          let aufschlag := betrag * p.ausgabeaufschlag
          { st with ausgabeaufschlag_summe := st.ausgabeaufschlag_summe + aufschlag, ausgabeaufschlag_real_summe := st.ausgabeaufschlag_real_summe + aufschlag / st.kumulierte_inflation_factor, stueckkosten_summe := st.stueckkosten_summe + p.stueckkosten, stueckkosten_real_summe := st.stueckkosten_real_summe + p.stueckkosten / st.kumulierte_inflation_factor }
      { st with portfolio := st.portfolio ++ [⟨month, netto, netto, netto, 0⟩] }
    else st
  else st

/-- The regular monthly deposit (lines 292-303). -/
def handleSparrate (p : Params) (month : ℕ) (st : SimState) : SimState :=
  if month < p.beitragszahldauer * 12 then
    let aufschlag := st.monthly_investment * p.ausgabeaufschlag
    let netto := st.monthly_investment - aufschlag
    { st with ausgabeaufschlag_summe := st.ausgabeaufschlag_summe + aufschlag,
              ausgabeaufschlag_real_summe := st.ausgabeaufschlag_real_summe + aufschlag / st.kumulierte_inflation_factor,
              cashflows := st.cashflows ++ [-st.monthly_investment],
              real_cashflows := st.real_cashflows ++ [-st.monthly_investment / st.kumulierte_inflation_factor],
              cashflow_dates := st.cashflow_dates ++ [month],
              portfolio := st.portfolio ++ [⟨month, netto, netto, netto, 0⟩] }
  else st

/-- Monthly/one-off deposits and savings-rate escalation
(`_handle_monthly_investment`, lines 259-303), in the source's order. -/
def handleMonthlyInvestment (p : Params) (month : ℕ) (st : SimState) : SimState :=
  handleSparrate p month (handleSonderzahlung p month (handleDynamik p month st))

/-! ## `_handle_costs` -/

/-- The January Stückkosten block of `_handle_costs` (lines 311-322);
`depotwert` is the portfolio value computed at the top of the handler. -/
def handleCostsStueck (p : Params) (month : ℕ) (depotwert : ℚ) (st : SimState) : SimState :=
  if ¬p.versicherung_modus ∧ month % 12 = 0 ∧ 0 < p.stueckkosten then
    let st := { st with stueckkosten_summe := st.stueckkosten_summe + p.stueckkosten,
                        stueckkosten_real_summe := st.stueckkosten_real_summe + p.stueckkosten / st.kumulierte_inflation_factor,
                        cashflows := st.cashflows ++ [-p.stueckkosten],
                        real_cashflows := st.real_cashflows ++ [-p.stueckkosten / st.kumulierte_inflation_factor],
                        cashflow_dates := st.cashflow_dates ++ [month] }
    if 0 < depotwert then
      { st with portfolio := applyAnteiligeKosten p.stueckkosten depotwert st.portfolio }
    else st
  else st

/-- The proportional monthly fees of `_handle_costs` (lines 324-341). -/
def handleCostsProportional (p : Params) (depotwert : ℚ) (st : SimState) : SimState :=
  if 0 < depotwert then
    let fond_kosten := depotwert * p.ter / 12
    let service_kosten := depotwert * p.serviceentgelt / 12
    let guthaben_kosten := if p.versicherung_modus then depotwert * p.guthabenkosten / 12 else 0
    let total_kosten := fond_kosten + service_kosten + guthaben_kosten
    let st := { st with portfolio := applyAnteiligeKosten total_kosten depotwert st.portfolio }
    let st := { st with ter_summe := st.ter_summe + fond_kosten,
                        ter_real_summe := st.ter_real_summe + fond_kosten / st.kumulierte_inflation_factor,
                        serviceentgelt_summe := st.serviceentgelt_summe + service_kosten,
                        serviceentgelt_real_summe := st.serviceentgelt_real_summe + service_kosten / st.kumulierte_inflation_factor }
    if p.versicherung_modus then
      { st with guthabenkosten_summe := st.guthabenkosten_summe + guthaben_kosten,
                guthabenkosten_real_summe := st.guthabenkosten_real_summe + guthaben_kosten / st.kumulierte_inflation_factor }
    else st
  else st

/-- The amortised insurance acquisition costs (lines 344-356). -/
def handleCostsAbschluss (p : Params) (month : ℕ) (depotwert : ℚ) (st : SimState) : SimState :=
  if month < p.verrechnungsdauer_monate ∧ 0 < st.abschlusskosten_rest then
    let monatliche_abschlusskosten := st.abschlusskosten_rest / (p.verrechnungsdauer_monate : ℚ)
    let st := { st with cashflows := st.cashflows ++ [-monatliche_abschlusskosten],
                        real_cashflows := st.real_cashflows ++ [-monatliche_abschlusskosten / st.kumulierte_inflation_factor],
                        cashflow_dates := st.cashflow_dates ++ [month] }
    let st :=
      if 0 < depotwert then
        { st with portfolio := applyAnteiligeKosten monatliche_abschlusskosten depotwert st.portfolio }
      else st
    { st with abschlusskosten_summe := st.abschlusskosten_summe + monatliche_abschlusskosten,
              abschlusskosten_real_summe := st.abschlusskosten_real_summe + monatliche_abschlusskosten / st.kumulierte_inflation_factor }
  else st

/-- The monthly insurance administration costs (lines 357-369). -/
def handleCostsVerwaltung (p : Params) (month : ℕ) (depotwert : ℚ) (st : SimState) : SimState :=
  if month < p.beitragszahldauer * 12 then
    let monatliche_verwaltungskosten := st.monthly_investment * p.verwaltungskosten_monatlich_prozent
    let st := { st with cashflows := st.cashflows ++ [-monatliche_verwaltungskosten],
                        real_cashflows := st.real_cashflows ++ [-monatliche_verwaltungskosten / st.kumulierte_inflation_factor],
                        cashflow_dates := st.cashflow_dates ++ [month] }
    let st :=
      if 0 < depotwert then
        { st with portfolio := applyAnteiligeKosten monatliche_verwaltungskosten depotwert st.portfolio }
      else st
    { st with verwaltungskosten_summe := st.verwaltungskosten_summe + monatliche_verwaltungskosten,
              verwaltungskosten_real_summe := st.verwaltungskosten_real_summe + monatliche_verwaltungskosten / st.kumulierte_inflation_factor }
  else st

/-- Monthly and January fee deductions (`_handle_costs`, lines 305-369).
`depotwert` is computed once at the top and deliberately not refreshed
after the Stückkosten deduction, exactly as in the source. -/
def handleCosts (p : Params) (month : ℕ) (st : SimState) : SimState :=
  let depotwert := sumValues st.portfolio
  let st := handleCostsStueck p month depotwert st
  let st := handleCostsProportional p depotwert st
  if p.versicherung_modus then
    handleCostsVerwaltung p month depotwert (handleCostsAbschluss p month depotwert st)
  else st

/-! ## `_handle_taxes`, `_handle_rebalancing`, `_handle_withdrawals` -/

/-- January accrual tax over the whole ledger (`_handle_taxes`,
lines 371-405); a no-op in insurance mode and outside January. -/
def handleTaxes (p : Params) (month : ℕ) (st : SimState) : SimState :=
  if ¬p.versicherung_modus ∧ month % 12 = 0 then
    let acc0 : AccSt := ⟨st.freistellungs_topf, st.total_tax_paid, st.total_tax_paid_real, st.cashflows, st.real_cashflows, st.cashflow_dates⟩
    let res := accrualLoop p st.kumulierte_inflation_factor month acc0 st.portfolio
    { st with portfolio := res.1, freistellungs_topf := res.2.topf,
              total_tax_paid := res.2.total_tax_paid,
              total_tax_paid_real := res.2.total_tax_paid_real,
              cashflows := res.2.cashflows, real_cashflows := res.2.real_cashflows,
              cashflow_dates := res.2.cashflow_dates }
  else st

/-- December rebalancing (`_handle_rebalancing`, lines 407-468): sell
`rebalancing_rate * depotwert` FIFO, reinvest the net proceeds as one new
lot, log the event. -/
def handleRebalancing (p : Params) (month : ℕ) (st : SimState) : SimState :=
  if ¬p.versicherung_modus ∧ month % 12 = 11 ∧ 0 < p.rebalancing_rate then
    let depotwert := sumValues st.portfolio
    let umzuschichten := depotwert * p.rebalancing_rate
    if 0 < umzuschichten then
      let r0 : RebalState := ⟨st.freistellungs_topf, 0, 0, 0, st.total_tax_paid, st.total_tax_paid_real, st.ruecknahmeabschlag_summe, st.ruecknahmeabschlag_real_summe, []⟩
      let res := fifoSellLoop (rebalStepSpar p st.kumulierte_inflation_factor) umzuschichten r0 st.portfolio
      let port2 := if eps < res.2.total_netto then res.1 ++ [⟨month, res.2.total_netto, res.2.total_netto, res.2.total_netto, 0⟩] else res.1
      { st with portfolio := port2, freistellungs_topf := res.2.topf,
                total_tax_paid := res.2.tax_paid,
                total_tax_paid_real := res.2.tax_paid_real,
                ruecknahmeabschlag_summe := res.2.ruecknahme_summe,
                ruecknahmeabschlag_real_summe := res.2.ruecknahme_real_summe,
                rebalancing_log := st.rebalancing_log ++ [⟨month, res.2.total_verkauf, res.2.total_steuer, res.2.total_netto⟩] }
    else st
  else st

/-- The yearly withdrawal amount owed in withdrawal year `wy`
(lines 484-491): the plan entry if a plan exists, else the flat
`annual_withdrawal` when truthy, else `0`. -/
def entnahmebetragJahr (p : Params) (wy : ℤ) : ℚ :=
  if p.entnahme_plan ≠ [] then planLookup p.entnahme_plan wy
  else if p.annual_withdrawal ≠ 0 then p.annual_withdrawal else 0

/-- The amount due in the current month (lines 496-500): the full yearly
amount in January for the yearly mode, a twelfth of it every month for
the monthly mode, otherwise `0`. -/
def entnahmebetragOf (p : Params) (month : ℕ) : ℚ :=
  let wy : ℤ := (month / 12 : ℕ) - (p.beitragszahldauer : ℤ) + 1
  let jahr := entnahmebetragJahr p wy
  if p.entnahme_modus = EntnahmeModus.jaehrlich ∧ month % 12 = 0 then jahr
  else if p.entnahme_modus = EntnahmeModus.monatlich then jahr / 12
  else 0

/-- Withdrawal phase (`_handle_withdrawals`, lines 470-574).  The source
returns without touching any state when the contribution phase is still
running, when no withdrawal is owed, or when `depotwert <
entnahmebetrag`; otherwise it sells FIFO and books the proceeds. -/
def handleWithdrawals (p : Params) (month : ℕ) (st : SimState) : SimState :=
  if month < p.beitragszahldauer * 12 then st
  else
    let depotwert := sumValues st.portfolio
    let wy : ℤ := (month / 12 : ℕ) - (p.beitragszahldauer : ℤ) + 1
    if entnahmebetragJahr p wy ≤ 0 then st
    else
      let entnahmebetrag := entnahmebetragOf p month
      if entnahmebetrag ≤ 0 ∨ depotwert < entnahmebetrag then st
      else
        let w0 : WdState := ⟨st.freistellungs_topf, 0, 0⟩
        let res := fifoSellLoop (withdrawStepSpar p month) entnahmebetrag w0 st.portfolio
        { st with portfolio := res.1, freistellungs_topf := res.2.topf,
                  total_tax_paid := st.total_tax_paid + res.2.tax_summe,
                  total_tax_paid_real := st.total_tax_paid_real + res.2.tax_summe / st.kumulierte_inflation_factor,
                  total_withdrawal_tax_paid := st.total_withdrawal_tax_paid + res.2.tax_summe,
                  total_withdrawal_tax_paid_real := st.total_withdrawal_tax_paid_real + res.2.tax_summe / st.kumulierte_inflation_factor,
                  ruecknahmeabschlag_summe := st.ruecknahmeabschlag_summe + entnahmebetrag * p.ruecknahmeabschlag,
                  ruecknahmeabschlag_real_summe := st.ruecknahmeabschlag_real_summe + entnahmebetrag * p.ruecknahmeabschlag / st.kumulierte_inflation_factor,
                  kumulierte_entnahmen := st.kumulierte_entnahmen + res.2.netto_summe,
                  kumulierte_entnahmen_real := st.kumulierte_entnahmen_real + res.2.netto_summe / st.kumulierte_inflation_factor,
                  cashflows := st.cashflows ++ [res.2.netto_summe],
                  real_cashflows := st.real_cashflows ++ [res.2.netto_summe / st.kumulierte_inflation_factor],
                  cashflow_dates := st.cashflow_dates ++ [month] }

/-! ## `_simuliere_monat`, initialisation and full run -/

/-- The January allowance reset (lines 195-199): the bucket is set to
the yearly allowance adjusted by the statute-indexation rate. -/
def januaryResetStep (p : Params) (month : ℕ) (st : SimState) : SimState :=
  if month % 12 = 0 then
    { st with freistellungs_topf := p.freistellungsauftrag_jahr * (1 + p.freistellungs_pauschbetrag_anpassung_rate) ^ (month / 12) }
  else st

/-- The monthly growth application (lines 204-212). -/
def applyMonthlyGrowthStep (p : Params) (dyn : Option (ℕ → ℚ))
    (month : ℕ) (st : SimState) : SimState :=
  { st with portfolio := applyGrowth (match dyn with | some f => f month | none => p.monthly_return) st.portfolio }

/-- The cumulative inflation-factor update (line 215). -/
def applyInflationStep (infl : ℕ → ℚ) (month : ℕ) (st : SimState) : SimState :=
  { st with kumulierte_inflation_factor := st.kumulierte_inflation_factor * (1 + infl month) }

/-- Appending the monthly log row (lines 221-252). -/
def appendLogStep (month : ℕ) (st : SimState) : SimState :=
  { st with monatliche_kosten_logs := st.monatliche_kosten_logs ++ [mkLogRow month (sumValues st.portfolio) st] }

/-- The December snapshot of each lot value (lines 254-257). -/
def decemberSnapshotStep (month : ℕ) (st : SimState) : SimState :=
  if month % 12 = 11 then { st with portfolio := snapshotYearEnd st.portfolio } else st

/-- One simulated month (`_simuliere_monat`, lines 188-257): January
allowance reset, deposits, fees, growth, inflation update, accrual tax,
rebalancing, withdrawal, log row, December snapshot — in exactly the
source's order.  `dyn` is the optional dynamic monthly-return path,
`infl` the drawn monthly inflation rates. -/
def simuliereMonat (p : Params) (dyn : Option (ℕ → ℚ)) (infl : ℕ → ℚ)
    (month : ℕ) (st : SimState) : SimState :=
  decemberSnapshotStep month
    (appendLogStep month
      (handleWithdrawals p month
        (handleRebalancing p month
          (handleTaxes p month
            (applyInflationStep infl month
              (applyMonthlyGrowthStep p dyn month
                (handleCosts p month
                  (handleMonthlyInvestment p month
                    (januaryResetStep p month st)))))))))

/-- The parameter mutation performed by `_initialisiere_simulation`
(lines 142-167): the derived fields are attached, and the fee fields
irrelevant to the selected mode are zeroed in place.
`monthlyReturnValue` stands for the float `(1 + annual_return) ** (1/12)
- 1`, whose exact value is irrational (see the file header). -/
def initialisiereParams (p : Params) (monthlyReturnValue : ℚ) : Params :=
  let p := { p with monthly_return := monthlyReturnValue,
                    full_tax_rate := p.abgeltungssteuer_rate * (1 + p.soli_zuschlag_on_abgeltungssteuer + p.kirchensteuer_on_abgeltungssteuer) }
  if p.versicherung_modus then
    { p with ausgabeaufschlag := 0, ruecknahmeabschlag := 0, stueckkosten := 0 }
  else
    { p with abschlusskosten_einmalig_prozent := 0, abschlusskosten_monatlich_prozent := 0,
             verwaltungskosten_monatlich_prozent := 0, guthabenkosten := 0 }

/-- The state fields set by `__init__` (lines 75-129). -/
def initStateRaw (p : Params) : SimState where
  portfolio := []
  rebalancing_log := []
  monatliche_kosten_logs := []
  cashflows := []
  cashflow_dates := []
  real_cashflows := []
  ausgabeaufschlag_summe := 0
  ruecknahmeabschlag_summe := 0
  stueckkosten_summe := 0
  abschlusskosten_summe := 0
  verwaltungskosten_summe := 0
  guthabenkosten_summe := 0
  ter_summe := 0
  serviceentgelt_summe := 0
  kumulierte_entnahmen := 0
  total_tax_paid := 0
  total_withdrawal_tax_paid := 0
  ausgabeaufschlag_real_summe := 0
  ruecknahmeabschlag_real_summe := 0
  stueckkosten_real_summe := 0
  abschlusskosten_real_summe := 0
  verwaltungskosten_real_summe := 0
  guthabenkosten_real_summe := 0
  ter_real_summe := 0
  serviceentgelt_real_summe := 0
  kumulierte_entnahmen_real := 0
  total_tax_paid_real := 0
  total_withdrawal_tax_paid_real := 0
  freistellungs_topf := p.freistellungsauftrag_jahr
  monthly_investment := p.monthly_investment
  abschlusskosten_rest := 0
  verwaltungskosten_rest := 0
  kumulierte_inflation_factor := 1

/-- `_initialisiere_simulation` (lines 142-186): mutate the parameters,
set up the insurance acquisition-cost pool, book the initial deposit and
create the first lot when its net amount is positive. -/
def initialisiereSimulation (p0 : Params) (monthlyReturnValue : ℚ) : Params × SimState :=
  let p := initialisiereParams p0 monthlyReturnValue
  let st := initStateRaw p0
  let st :=
    if p.versicherung_modus then
      { st with abschlusskosten_rest := p.initial_investment * p.abschlusskosten_einmalig_prozent + p.monthly_investment * (p.beitragszahldauer * 12 : ℕ) * p.abschlusskosten_monatlich_prozent }
    else st
  let aufschlag := p.initial_investment * p.ausgabeaufschlag
  let nettobetrag := p.initial_investment - aufschlag
  let st := { st with ausgabeaufschlag_summe := st.ausgabeaufschlag_summe + aufschlag,
                      ausgabeaufschlag_real_summe := st.ausgabeaufschlag_real_summe + aufschlag / st.kumulierte_inflation_factor,
                      cashflows := st.cashflows ++ [-p.initial_investment],
                      real_cashflows := st.real_cashflows ++ [-p.initial_investment],
                      cashflow_dates := st.cashflow_dates ++ [0] }
  let st :=
    if 0 < nettobetrag then
      { st with portfolio := st.portfolio ++ [⟨0, nettobetrag, nettobetrag, nettobetrag, 0⟩] }
    else st
  (p, st)

/-- `_finalisiere_simulation` (lines 576-646): final log row, then one
taxed liquidation of the remaining ledger value. -/
def finalisiereSimulation (p : Params) (st : SimState) : SimState :=
  let depotwert_final := sumValues st.portfolio
  let st := { st with monatliche_kosten_logs := st.monatliche_kosten_logs ++ [mkLogRow (p.laufzeit * 12) depotwert_final st] }
  let restwert := sumValues st.portfolio
  if eps < restwert then
    let investiert := sumInvested st.portfolio
    let gewinn := max 0 (restwert - investiert)
    let steuer :=
      if p.versicherung_modus then
        if 62 ≤ p.eintrittsalter + p.laufzeit ∧ 12 ≤ p.laufzeit then
          gewinn * (1 / 2) * p.persoenlicher_steuersatz
        else
          gewinn * (17 / 20) * p.persoenlicher_steuersatz
      else
        max 0 (gewinn * (1 - p.teilfreistellung) - sumVorab st.portfolio) * p.full_tax_rate
    let st :=
      if ¬p.versicherung_modus then
        { st with total_withdrawal_tax_paid := st.total_withdrawal_tax_paid + steuer,
                  total_withdrawal_tax_paid_real := st.total_withdrawal_tax_paid_real + steuer / st.kumulierte_inflation_factor }
      else st
    let ruecknahmeabschlag := restwert * p.ruecknahmeabschlag
    let restwert_net := restwert - steuer - ruecknahmeabschlag
    { st with total_tax_paid := st.total_tax_paid + steuer,
              total_tax_paid_real := st.total_tax_paid_real + steuer / st.kumulierte_inflation_factor,
              ruecknahmeabschlag_summe := st.ruecknahmeabschlag_summe + ruecknahmeabschlag,
              ruecknahmeabschlag_real_summe := st.ruecknahmeabschlag_real_summe + ruecknahmeabschlag / st.kumulierte_inflation_factor,
              cashflows := st.cashflows ++ [restwert_net],
              real_cashflows := st.real_cashflows ++ [restwert_net / st.kumulierte_inflation_factor],
              cashflow_dates := st.cashflow_dates ++ [p.laufzeit * 12],
              kumulierte_entnahmen := st.kumulierte_entnahmen + restwert_net,
              kumulierte_entnahmen_real := st.kumulierte_entnahmen_real + restwert_net / st.kumulierte_inflation_factor }
  else st

/-- `run_simulation` (lines 131-140): initialise, run every month in
order, finalise.  Returns the mutated parameter object together with the
final state. -/
def runSimulation (p0 : Params) (monthlyReturnValue : ℚ) (dyn : Option (ℕ → ℚ))
    (infl : ℕ → ℚ) : Params × SimState :=
  let pst := initialisiereSimulation p0 monthlyReturnValue
  let st := (List.range (pst.1.laufzeit * 12)).foldl
    (fun s m => simuliereMonat pst.1 dyn infl m s) pst.2
  (pst.1, finalisiereSimulation pst.1 st)

/-! ## Concrete inputs used by the witnesses and counterexamples -/

/-- A Depot-mode parameter set with all rates and amounts zero; the
concrete scenarios below override individual fields. -/
def baseParams : Params where
  versicherung_modus := false
  eintrittsalter := 35
  initial_investment := 0
  monthly_investment := 0
  laufzeit := 1
  beitragszahldauer := 0
  monthly_dynamik_rate := 0
  dynamik_turnus_monate := 12
  sonderzahlung_jahr := 5
  sonderzahlung_betrag := 0
  regel_sonderzahlung_betrag := 0
  regel_sonderzahlung_turnus_jahre := 0
  annual_withdrawal := 0
  entnahme_plan := []
  entnahme_modus := EntnahmeModus.keine
  annual_return := 0
  ausgabeaufschlag := 0
  ruecknahmeabschlag := 0
  ter := 0
  serviceentgelt := 0
  stueckkosten := 0
  abschlusskosten_einmalig_prozent := 0
  abschlusskosten_monatlich_prozent := 0
  verrechnungsdauer_monate := 60
  verwaltungskosten_monatlich_prozent := 0
  guthabenkosten := 0
  abgeltungssteuer_rate := 0
  soli_zuschlag_on_abgeltungssteuer := 0
  kirchensteuer_on_abgeltungssteuer := 0
  persoenlicher_steuersatz := 0
  freistellungsauftrag_jahr := 0
  teilfreistellung := 0
  basiszins := 0
  rebalancing_rate := 0
  bewertungsdauer := 0
  inflation_rate := 0
  inflation_volatility := 0
  freistellungs_pauschbetrag_anpassung_rate := 0
  monthly_return := 0
  full_tax_rate := 0

/-- Modelled from the spec (§4.2, realized-gain tax, non-insurance): the
claimed per-tranche sale tax
`max(0, (max(0, gain*(1-teilfreistellung) - accrualConsumed) - allowanceUsed)) * rate`. -/
def specSaleTax (gain accrualConsumed allowanceUsed teilfreistellung rate : ℚ) : ℚ :=
  max 0 (max 0 (gain * (1 - teilfreistellung) - accrualConsumed) - allowanceUsed) * rate

/-- Depot-mode scenario with only the combined tax rate set. -/
def pC1 : Params := { baseParams with full_tax_rate := 1 / 4 }

/-- A lot worth 200 with cost basis 100 of which 50 were already taxed
by annual accruals. -/
def lotC1 : Lot := ⟨0, 100, 200, 200, 50⟩

/-- Depot scenario for the accrual side-effect counterexample: base rate
1 so that the notional yield equals the prior-year value. -/
def pC3 : Params := { baseParams with basiszins := 1, full_tax_rate := 1 / 4 }

/-- A lot with taxable accrual yield 100. -/
def lotC3 : Lot := ⟨0, 100, 200, 100, 0⟩

/-- Accrual-loop state with a large allowance bucket. -/
def accStC3 : AccSt := ⟨1000, 0, 0, [], [], []⟩

/-- Insurance-wrapper scenario constructed with a nonzero entry load. -/
def pC8 : Params := { baseParams with versicherung_modus := true, ausgabeaufschlag := 1 / 500 }

/-- Scenario for the C10 witness: a flat yearly withdrawal of 100 paid
monthly from an empty ledger. -/
def pC10 : Params := { baseParams with annual_withdrawal := 100, entnahme_modus := EntnahmeModus.jaehrlich }

/-- Depot scenario with a 20% rebalancing rate, 25% combined tax rate
and 1% exit load. -/
def pC7 : Params := { baseParams with rebalancing_rate := 1 / 5, full_tax_rate := 1 / 4, ruecknahmeabschlag := 1 / 100 }

/-- A one-lot state for the rebalancing witness. -/
def stC7 : SimState := { initStateRaw pC7 with portfolio := [⟨0, 100, 200, 100, 0⟩] }

/-! ## Portfolio-value nonnegativity (C6) -/

/-- Depot scenario with the flagship's flat 45 € Stückkosten but only a
10 € initial deposit. -/
def pC6 : Params := { baseParams with stueckkosten := 45, initial_investment := 10 }

/-- Sanity bounds on a Depot configuration under which the ledger can
never go negative: no flat Stückkosten, loads and rates within `[0,1]`,
proportional fee rates summing below one per month, and nonnegative
contribution amounts. -/
def SaneDepot (p : Params) : Prop :=
  p.versicherung_modus = false ∧ p.stueckkosten = 0 ∧
  0 ≤ p.ausgabeaufschlag ∧ p.ausgabeaufschlag ≤ 1 ∧
  0 ≤ p.ter ∧ 0 ≤ p.serviceentgelt ∧ p.ter + p.serviceentgelt ≤ 12 ∧
  0 ≤ p.teilfreistellung ∧ p.teilfreistellung ≤ 1 ∧
  0 ≤ p.full_tax_rate ∧ p.full_tax_rate ≤ 1 ∧
  0 ≤ p.freistellungsauftrag_jahr ∧ 0 ≤ 1 + p.freistellungs_pauschbetrag_anpassung_rate ∧
  0 ≤ 1 + p.monthly_dynamik_rate ∧ 0 ≤ p.sonderzahlung_betrag ∧ 0 ≤ p.regel_sonderzahlung_betrag

/-- The state invariant for C6: every held lot has nonnegative value and
nonnegative prior-year snapshot, the allowance bucket is nonnegative and
the current savings rate is nonnegative. -/
def InvC6 (st : SimState) : Prop :=
  (∀ lot ∈ st.portfolio, 0 ≤ lot.value ∧ 0 ≤ lot.start_of_prev_year_value) ∧
  0 ≤ st.freistellungs_topf ∧ 0 ≤ st.monthly_investment

/-! ### monte_carlo_simulator.get_worst_3_years

A pandas Series of monthly returns is modelled as a chronological list of
(calendar year, monthly return) pairs; `get_worst_3_years` only reads the
year of each date label.  `groupby(year)` visits the keys sorted
ascending (`sortedKeys`); `rolling(window=3)` yields NaN for the first
two positions, and `idxmin`/`min` skip NaNs, so `rolling3` simply omits
those positions and labels each window by its last year.  `idxminQ`
returns the first (label, value) pair attaining the minimum, as pandas
`idxmin` does. -/

def insertKey (y : ℤ) : List ℤ → List ℤ
  | [] => [y]
  | a :: rest =>
      if y < a then y :: a :: rest
      else if y = a then a :: rest
      else a :: insertKey y rest

def sortedKeys : List (ℤ × ℚ) → List ℤ
  | [] => []
  | e :: rest => insertKey e.1 (sortedKeys rest)

def yearReturn (s : List (ℤ × ℚ)) (y : ℤ) : ℚ :=
  ((s.filter (fun e => decide (e.1 = y))).map (fun e => 1 + e.2)).prod - 1

def returnsByYear (s : List (ℤ × ℚ)) : List (ℤ × ℚ) :=
  (sortedKeys s).map (fun y => (y, yearReturn s y))

def rolling3 : List (ℤ × ℚ) → List (ℤ × ℚ)
  | a :: b :: c :: rest =>
      (c.1, (1 + a.2) * (1 + b.2) * (1 + c.2) - 1) :: rolling3 (b :: c :: rest)
  | _ => []

def idxminQ : List (ℤ × ℚ) → Option (ℤ × ℚ)
  | [] => none
  | e :: rest =>
      match idxminQ rest with
      | none => some e
      | some m => if m.2 < e.2 then some m else some e

def get_worst_3_years (s : List (ℤ × ℚ)) : Option (List (ℤ × ℚ) × ℤ × ℚ) :=
  match idxminQ (rolling3 (returnsByYear s)) with
  | none => none
  | some m =>
      let start := m.1 - 2
      some (s.filter (fun e => decide (start ≤ e.1) && decide (e.1 < start + 3)),
        start, m.2)

/-- Spec-modelled notion: the compounded return of the 3-year window that
starts at calendar year `y`. -/
def specWindow3 (s : List (ℤ × ℚ)) (y : ℤ) : ℚ :=
  (1 + yearReturn s y) * (1 + yearReturn s (y + 1)) * (1 + yearReturn s (y + 2)) - 1

def sW9 : List (ℤ × ℚ) :=
  [(2000, 0), (2001, -(1/2)), (2002, 0), (2003, 1)]

/-- Ghost-trace projection of one rebalancing step. -/
theorem rebalStep_solds (p : Params) (i : ℚ) (st : RebalState) (lot : Lot) (sell : ℚ) :
    ((rebalStepSpar p i st lot sell).2.2).solds = st.solds ++ [sell] := rfl

/-- Gross-counter projection of one rebalancing step. -/
theorem rebalStep_verkauf (p : Params) (i : ℚ) (st : RebalState) (lot : Lot) (sell : ℚ) :
    ((rebalStepSpar p i st lot sell).2.2).total_verkauf = st.total_verkauf + sell := rfl

/-- Tax-counter projection of one rebalancing step. -/
theorem rebalStep_steuer (p : Params) (i : ℚ) (st : RebalState) (lot : Lot) (sell : ℚ) :
    ((rebalStepSpar p i st lot sell).2.2).total_steuer
      = st.total_steuer + rebalSteuerOf p st.topf lot sell := rfl

/-- Net-counter projection of one rebalancing step. -/
theorem rebalStep_netto (p : Params) (i : ℚ) (st : RebalState) (lot : Lot) (sell : ℚ) :
    ((rebalStepSpar p i st lot sell).2.2).total_netto
      = st.total_netto + (sell - rebalSteuerOf p st.topf lot sell - sell * p.ruecknahmeabschlag) := rfl

/-- C1: the claim says the withdrawal sale tax subtracts the consumed
already-taxed accrual from the taxable gain before the rate is applied.
`SparplanSimulator_250819._handle_withdrawals` does not: selling the
whole of `lotC1` (gain 100, accrual consumed 50, no exemption, empty
allowance, rate 25%) it charges 25 = gain*rate, while the claimed
formula — and the `Gutachten.py` variant of the same routine — give
12.5, so the accrual is taxed a second time. -/
theorem C1_withdrawal_tax_ignores_consumed_accrual :
    (withdrawStepSpar pC1 0 ⟨0, 0, 0⟩ lotC1 200).2.2.tax_summe = 25 ∧
    specSaleTax 100 50 0 0 (1 / 4) = 25 / 2 ∧
    withdrawSteuerGut pC1 0 lotC1 200 = 25 / 2 ∧
    (25 : ℚ) ≠ 25 / 2 := by
  refine ⟨?_, ?_, ?_, ?_⟩
  · norm_num [withdrawStepSpar, pC1, lotC1, baseParams, min_def, max_def]
  · norm_num [specSaleTax, min_def, max_def]
  · norm_num [withdrawSteuerGut, pC1, lotC1, baseParams, min_def, max_def]
  · norm_num

/-- C2: the January accrual tax per lot: `taxableYield =
min(startOfPriorYearValue * baseRate, realizedYield)`, partial
exemption, allowance use `min(available, max(0, partiallyExempt))`, and
`taxOwed = max(0, partiallyExempt - allowanceUsed) * fullTaxRate`; the
tax is never negative, and a negative realized yield gives zero tax. -/
theorem C2_accrual_tax_formula (p : Params) (topf : ℚ) (lot : Lot)
    (htopf : 0 ≤ topf) (hrate : 0 ≤ p.full_tax_rate)
    (htf : p.teilfreistellung ≤ 1) :
    steuerbarerErtrag p lot
      = min (lot.start_of_prev_year_value * p.basiszins) (lot.value - lot.start_of_prev_year_value) ∧
    zuVersteuernTemp p lot = steuerbarerErtrag p lot * (1 - p.teilfreistellung) ∧
    vorabFreibetragUsed p topf lot = min topf (max 0 (zuVersteuernTemp p lot)) ∧
    vorabSteuer p topf lot
      = max 0 (zuVersteuernTemp p lot - vorabFreibetragUsed p topf lot) * p.full_tax_rate ∧
    0 ≤ vorabSteuer p topf lot ∧
    (realErtrag lot < 0 → vorabSteuer p topf lot = 0) := by
  refine ⟨rfl, rfl, rfl, rfl, ?_, ?_⟩
  · exact mul_nonneg (le_max_left 0 _) hrate
  · intro hneg
    have hse : steuerbarerErtrag p lot < 0 :=
      lt_of_le_of_lt (min_le_right _ _) hneg
    have htemp : zuVersteuernTemp p lot ≤ 0 :=
      mul_nonpos_of_nonpos_of_nonneg hse.le (by linarith)
    have hmax : max 0 (zuVersteuernTemp p lot) = 0 := max_eq_left htemp
    have hused : vorabFreibetragUsed p topf lot = 0 := by
      rw [vorabFreibetragUsed, hmax]
      exact min_eq_right htopf
    have hzv : vorabZuVersteuern p topf lot = 0 := by
      rw [vorabZuVersteuern, hused]
      simpa using htemp
    rw [vorabSteuer, hzv, zero_mul]

/-- Witness for C2 on a lot with a negative realized yield. -/
theorem C2_accrual_tax_formula_witness :
    realErtrag ⟨0, 100, 50, 100, 0⟩ < 0 ∧
    vorabSteuer baseParams 5 ⟨0, 100, 50, 100, 0⟩ = 0 := by
  have h := C2_accrual_tax_formula baseParams 5 ⟨0, 100, 50, 100, 0⟩
    (by norm_num) (by norm_num [baseParams]) (by norm_num [baseParams])
  have hre : realErtrag ⟨0, 100, 50, 100, 0⟩ < 0 := by norm_num [realErtrag]
  exact ⟨hre, h.2.2.2.2.2 hre⟩

/-- C3 counterexample: on a lot with taxable yield 100 fully covered by
the allowance, the tax is zero and the source's `if steuer > 0` guard
skips the accrual note entirely, so `alreadyTaxedAccrual` grows by
neither `taxableYield` (100) nor `partiallyExemptTaxable` (100) — it
stays 0. -/
theorem C3_accrual_side_effects_counterexample :
    steuerbarerErtrag pC3 lotC3 = 100 ∧
    zuVersteuernTemp pC3 lotC3 = 100 ∧
    (accrualLotStep pC3 1 0 accStC3 lotC3).1.vorab = 0 ∧
    ¬ ((accrualLotStep pC3 1 0 accStC3 lotC3).1.vorab
        = lotC3.vorab + steuerbarerErtrag pC3 lotC3 ∨
       (accrualLotStep pC3 1 0 accStC3 lotC3).1.vorab
        = lotC3.vorab + zuVersteuernTemp pC3 lotC3) := by
  have h1 : steuerbarerErtrag pC3 lotC3 = 100 := by
    norm_num [steuerbarerErtrag, fiktiverErtrag, realErtrag, pC3, lotC3, baseParams, min_def]
  have h2 : zuVersteuernTemp pC3 lotC3 = 100 := by
    norm_num [zuVersteuernTemp, steuerbarerErtrag, fiktiverErtrag, realErtrag, pC3, lotC3,
      baseParams, min_def]
  have h3 : (accrualLotStep pC3 1 0 accStC3 lotC3).1.vorab = 0 := by
    norm_num [accrualLotStep, vorabSteuer, vorabZuVersteuern, vorabFreibetragUsed,
      zuVersteuernTemp, steuerbarerErtrag, fiktiverErtrag, realErtrag, pC3, lotC3, baseParams,
      accStC3, min_def, max_def]
  refine ⟨h1, h2, h3, ?_⟩
  simp only [h1, h2, h3]
  norm_num [lotC3]

/-- C3 amended: after a January accrual event on a lot the side effects
are exactly: the allowance bucket decreases by `allowanceUsed`
unconditionally; and, only when the resulting tax is strictly positive,
the lot's value decreases by `taxOwed`, the lot's `alreadyTaxedAccrual`
increases by the post-allowance amount `max(0, partiallyExemptTaxable -
allowanceUsed)` (not by `taxableYield`), and the cumulative tax counter
increases by `taxOwed`; all other lot fields are unchanged. -/
theorem C3_accrual_side_effects (p : Params) (inflFactor : ℚ) (month : ℕ)
    (st : AccSt) (lot : Lot) :
    (accrualLotStep p inflFactor month st lot).2.topf
      = st.topf - vorabFreibetragUsed p st.topf lot ∧
    (accrualLotStep p inflFactor month st lot).1.value
      = lot.value - (if 0 < vorabSteuer p st.topf lot then vorabSteuer p st.topf lot else 0) ∧
    (accrualLotStep p inflFactor month st lot).1.vorab
      = lot.vorab + (if 0 < vorabSteuer p st.topf lot then vorabZuVersteuern p st.topf lot else 0) ∧
    (accrualLotStep p inflFactor month st lot).2.total_tax_paid
      = st.total_tax_paid + (if 0 < vorabSteuer p st.topf lot then vorabSteuer p st.topf lot else 0) ∧
    (accrualLotStep p inflFactor month st lot).1.date = lot.date ∧
    (accrualLotStep p inflFactor month st lot).1.amount_invested = lot.amount_invested ∧
    (accrualLotStep p inflFactor month st lot).1.start_of_prev_year_value
      = lot.start_of_prev_year_value := by
  by_cases h : 0 < vorabSteuer p st.topf lot <;>
    simp [accrualLotStep, h]

/-- C8 counterexample: `_initialisiere_simulation` mutates the params
object in place — an insurance scenario constructed with
`ausgabeaufschlag = 0.002` holds `0` in that field after
`run_simulation`, so not every field keeps its constructed value. -/
theorem C8_params_mutated_counterexample :
    pC8.ausgabeaufschlag = 1 / 500 ∧
    (initialisiereParams pC8 0).ausgabeaufschlag = 0 ∧
    (runSimulation pC8 0 none (fun _ => 0)).1.ausgabeaufschlag = 0 := by
  refine ⟨by norm_num [pC8, baseParams], ?_, ?_⟩ <;>
    norm_num [runSimulation, initialisiereSimulation, initialisiereParams, pC8, baseParams]

/-- C8 amended: the params object is mutated exactly once, by
`_initialisiere_simulation`: the derived `monthly_return` and
`full_tax_rate` fields are attached and the fee fields irrelevant to the
selected mode are zeroed; every other field keeps its constructed value,
the mode-relevant fee fields are preserved, and the params returned by
`run_simulation` are exactly the initialised ones — no month step
mutates them further. -/
theorem C8_params_mutation_only_in_init (p : Params) (mrv : ℚ) :
    (initialisiereParams p mrv).versicherung_modus = p.versicherung_modus ∧
    (initialisiereParams p mrv).eintrittsalter = p.eintrittsalter ∧
    (initialisiereParams p mrv).initial_investment = p.initial_investment ∧
    (initialisiereParams p mrv).monthly_investment = p.monthly_investment ∧
    (initialisiereParams p mrv).laufzeit = p.laufzeit ∧
    (initialisiereParams p mrv).beitragszahldauer = p.beitragszahldauer ∧
    (initialisiereParams p mrv).monthly_dynamik_rate = p.monthly_dynamik_rate ∧
    (initialisiereParams p mrv).dynamik_turnus_monate = p.dynamik_turnus_monate ∧
    (initialisiereParams p mrv).sonderzahlung_jahr = p.sonderzahlung_jahr ∧
    (initialisiereParams p mrv).sonderzahlung_betrag = p.sonderzahlung_betrag ∧
    (initialisiereParams p mrv).regel_sonderzahlung_betrag = p.regel_sonderzahlung_betrag ∧
    (initialisiereParams p mrv).regel_sonderzahlung_turnus_jahre = p.regel_sonderzahlung_turnus_jahre ∧
    (initialisiereParams p mrv).annual_withdrawal = p.annual_withdrawal ∧
    (initialisiereParams p mrv).entnahme_plan = p.entnahme_plan ∧
    (initialisiereParams p mrv).entnahme_modus = p.entnahme_modus ∧
    (initialisiereParams p mrv).annual_return = p.annual_return ∧
    (initialisiereParams p mrv).ter = p.ter ∧
    (initialisiereParams p mrv).serviceentgelt = p.serviceentgelt ∧
    (initialisiereParams p mrv).verrechnungsdauer_monate = p.verrechnungsdauer_monate ∧
    (initialisiereParams p mrv).abgeltungssteuer_rate = p.abgeltungssteuer_rate ∧
    (initialisiereParams p mrv).soli_zuschlag_on_abgeltungssteuer = p.soli_zuschlag_on_abgeltungssteuer ∧
    (initialisiereParams p mrv).kirchensteuer_on_abgeltungssteuer = p.kirchensteuer_on_abgeltungssteuer ∧
    (initialisiereParams p mrv).persoenlicher_steuersatz = p.persoenlicher_steuersatz ∧
    (initialisiereParams p mrv).freistellungsauftrag_jahr = p.freistellungsauftrag_jahr ∧
    (initialisiereParams p mrv).teilfreistellung = p.teilfreistellung ∧
    (initialisiereParams p mrv).basiszins = p.basiszins ∧
    (initialisiereParams p mrv).rebalancing_rate = p.rebalancing_rate ∧
    (initialisiereParams p mrv).bewertungsdauer = p.bewertungsdauer ∧
    (initialisiereParams p mrv).inflation_rate = p.inflation_rate ∧
    (initialisiereParams p mrv).inflation_volatility = p.inflation_volatility ∧
    (initialisiereParams p mrv).freistellungs_pauschbetrag_anpassung_rate
      = p.freistellungs_pauschbetrag_anpassung_rate ∧
    (initialisiereParams p mrv).monthly_return = mrv ∧
    (initialisiereParams p mrv).full_tax_rate
      = p.abgeltungssteuer_rate * (1 + p.soli_zuschlag_on_abgeltungssteuer + p.kirchensteuer_on_abgeltungssteuer) ∧
    (p.versicherung_modus = true →
      (initialisiereParams p mrv).ausgabeaufschlag = 0 ∧
      (initialisiereParams p mrv).ruecknahmeabschlag = 0 ∧
      (initialisiereParams p mrv).stueckkosten = 0 ∧
      (initialisiereParams p mrv).abschlusskosten_einmalig_prozent = p.abschlusskosten_einmalig_prozent ∧
      (initialisiereParams p mrv).abschlusskosten_monatlich_prozent = p.abschlusskosten_monatlich_prozent ∧
      (initialisiereParams p mrv).verwaltungskosten_monatlich_prozent = p.verwaltungskosten_monatlich_prozent ∧
      (initialisiereParams p mrv).guthabenkosten = p.guthabenkosten) ∧
    (p.versicherung_modus = false →
      (initialisiereParams p mrv).abschlusskosten_einmalig_prozent = 0 ∧
      (initialisiereParams p mrv).abschlusskosten_monatlich_prozent = 0 ∧
      (initialisiereParams p mrv).verwaltungskosten_monatlich_prozent = 0 ∧
      (initialisiereParams p mrv).guthabenkosten = 0 ∧
      (initialisiereParams p mrv).ausgabeaufschlag = p.ausgabeaufschlag ∧
      (initialisiereParams p mrv).ruecknahmeabschlag = p.ruecknahmeabschlag ∧
      (initialisiereParams p mrv).stueckkosten = p.stueckkosten) ∧
    (∀ dyn infl, (runSimulation p mrv dyn infl).1 = initialisiereParams p mrv) := by
  cases hv : p.versicherung_modus <;>
    simp [initialisiereParams, runSimulation, initialisiereSimulation, hv]

/-- Witness for C8, discharging the insurance-mode implication at the
concrete scenario `pC8`. -/
theorem C8_params_mutation_only_in_init_witness :
    (initialisiereParams pC8 0).guthabenkosten = pC8.guthabenkosten ∧
    (initialisiereParams pC8 0).ausgabeaufschlag = 0 := by
  have h := C8_params_mutation_only_in_init pC8 0
  have hins := (h.2.2.2.2.2.2.2.2.2.2.2.2.2.2.2.2.2.2.2.2.2.2.2.2.2.2.2.2.2.2.2.2.2.1)
    (by norm_num [pC8, baseParams])
  exact ⟨hins.2.2.2.2.2.2, hins.1⟩

/-- C10: if the withdrawal due this month exceeds the portfolio value,
`_handle_withdrawals` returns before selling anything: the entire state
— ledger, allowance, every counter and every log — is unchanged. -/
theorem C10_withdrawal_skipped_on_shortfall (p : Params) (month : ℕ) (st : SimState)
    (h : sumValues st.portfolio < entnahmebetragOf p month) :
    handleWithdrawals p month st = st := by
  simp only [handleWithdrawals]
  split_ifs with h1 h2 h3
  · rfl
  · rfl
  · rfl
  · exact absurd (Or.inr h) h3

/-- Witness for C10: with an empty ledger and a due January withdrawal
of 100 the handler leaves the state untouched. -/
theorem C10_withdrawal_skipped_on_shortfall_witness :
    sumValues (initStateRaw pC10).portfolio < entnahmebetragOf pC10 0 ∧
    handleWithdrawals pC10 0 (initStateRaw pC10) = initStateRaw pC10 := by
  have hlt : sumValues (initStateRaw pC10).portfolio < entnahmebetragOf pC10 0 := by
    norm_num [sumValues, initStateRaw, entnahmebetragOf, entnahmebetragJahr, planLookup,
      sortPlanDesc, pC10, baseParams]
  exact ⟨hlt, C10_withdrawal_skipped_on_shortfall pC10 0 (initStateRaw pC10) hlt⟩

/-! ## Rebalancing conservation (C7) -/

/-- Ghost-trace conservation of the rebalancing loop: the per-tranche
sold values recorded in `solds` grow by exactly the tranches consumed,
the gross counter grows by their sum, and the net counter grows by the
gross growth minus the tax growth minus the exit load on the gross
growth. -/
theorem rebalLoop_conservation (p : Params) (inflFactor : ℚ) :
    ∀ (ledger : List Lot) (remaining : ℚ) (r0 : RebalState),
      ∃ sold : List ℚ,
        (fifoSellLoop (rebalStepSpar p inflFactor) remaining r0 ledger).2.solds
          = r0.solds ++ sold ∧
        (fifoSellLoop (rebalStepSpar p inflFactor) remaining r0 ledger).2.total_verkauf
          = r0.total_verkauf + sold.sum ∧
        (fifoSellLoop (rebalStepSpar p inflFactor) remaining r0 ledger).2.total_netto
            - r0.total_netto
          = ((fifoSellLoop (rebalStepSpar p inflFactor) remaining r0 ledger).2.total_verkauf
              - r0.total_verkauf)
            - ((fifoSellLoop (rebalStepSpar p inflFactor) remaining r0 ledger).2.total_steuer
              - r0.total_steuer)
            - ((fifoSellLoop (rebalStepSpar p inflFactor) remaining r0 ledger).2.total_verkauf
              - r0.total_verkauf) * p.ruecknahmeabschlag := by
  intro ledger
  induction ledger with
  | nil =>
    intro remaining r0
    refine ⟨[], ?_, ?_, ?_⟩ <;> simp [fifoSellLoop]
  | cons lot rest ih =>
    intro remaining r0
    by_cases h1 : remaining ≤ eps
    · refine ⟨[], ?_, ?_, ?_⟩ <;> simp [fifoSellLoop, h1]
    · by_cases h2 : lot.value ≤ 0
      · obtain ⟨sold, hs, hv, hn⟩ := ih remaining r0
        exact ⟨sold, by simp only [fifoSellLoop, if_neg h1, if_pos h2]; exact hs,
               by simp only [fifoSellLoop, if_neg h1, if_pos h2]; exact hv,
               by simp only [fifoSellLoop, if_neg h1, if_pos h2]; exact hn⟩
      · obtain ⟨sold, hs, hv, hn⟩ := ih (remaining - min lot.value remaining)
          ((rebalStepSpar p inflFactor r0 lot (min lot.value remaining)).2.2)
        rw [rebalStep_solds] at hs
        rw [rebalStep_verkauf] at hv
        rw [rebalStep_netto, rebalStep_verkauf, rebalStep_steuer] at hn
        refine ⟨min lot.value remaining :: sold, ?_, ?_, ?_⟩
        · simp only [fifoSellLoop, if_neg h1, if_neg h2]
          rw [hs]
          simp
        · simp only [fifoSellLoop, if_neg h1, if_neg h2]
          rw [hv]
          simp only [List.sum_cons]
          ring
        · simp only [fifoSellLoop, if_neg h1, if_neg h2]
          linear_combination hn

/-- C7: for every rebalancing event, the logged `Bruttoverkauf` is
exactly the sum of the per-tranche sold values of that event (the ghost
trace `solds` of the sale loop), and the logged net reinvested amount is
exactly the gross sale minus the total tax minus the exit load on the
gross sale (exact in rational arithmetic, hence within any epsilon). -/
theorem C7_rebalancing_conservation (p : Params) (month : ℕ) (st : SimState)
    (hv : p.versicherung_modus = false) (hm : month % 12 = 11)
    (hr : 0 < p.rebalancing_rate)
    (hu : 0 < sumValues st.portfolio * p.rebalancing_rate) :
    ∃ sold : List ℚ,
      (fifoSellLoop (rebalStepSpar p st.kumulierte_inflation_factor)
          (sumValues st.portfolio * p.rebalancing_rate)
          ⟨st.freistellungs_topf, 0, 0, 0, st.total_tax_paid, st.total_tax_paid_real,
            st.ruecknahmeabschlag_summe, st.ruecknahmeabschlag_real_summe, []⟩
          st.portfolio).2.solds = sold ∧
      (handleRebalancing p month st).rebalancing_log
        = st.rebalancing_log ++
          [⟨month,
            (fifoSellLoop (rebalStepSpar p st.kumulierte_inflation_factor)
              (sumValues st.portfolio * p.rebalancing_rate)
              ⟨st.freistellungs_topf, 0, 0, 0, st.total_tax_paid, st.total_tax_paid_real,
                st.ruecknahmeabschlag_summe, st.ruecknahmeabschlag_real_summe, []⟩
              st.portfolio).2.total_verkauf,
            (fifoSellLoop (rebalStepSpar p st.kumulierte_inflation_factor)
              (sumValues st.portfolio * p.rebalancing_rate)
              ⟨st.freistellungs_topf, 0, 0, 0, st.total_tax_paid, st.total_tax_paid_real,
                st.ruecknahmeabschlag_summe, st.ruecknahmeabschlag_real_summe, []⟩
              st.portfolio).2.total_steuer,
            (fifoSellLoop (rebalStepSpar p st.kumulierte_inflation_factor)
              (sumValues st.portfolio * p.rebalancing_rate)
              ⟨st.freistellungs_topf, 0, 0, 0, st.total_tax_paid, st.total_tax_paid_real,
                st.ruecknahmeabschlag_summe, st.ruecknahmeabschlag_real_summe, []⟩
              st.portfolio).2.total_netto⟩] ∧
      (fifoSellLoop (rebalStepSpar p st.kumulierte_inflation_factor)
          (sumValues st.portfolio * p.rebalancing_rate)
          ⟨st.freistellungs_topf, 0, 0, 0, st.total_tax_paid, st.total_tax_paid_real,
            st.ruecknahmeabschlag_summe, st.ruecknahmeabschlag_real_summe, []⟩
          st.portfolio).2.total_verkauf = sold.sum ∧
      (fifoSellLoop (rebalStepSpar p st.kumulierte_inflation_factor)
          (sumValues st.portfolio * p.rebalancing_rate)
          ⟨st.freistellungs_topf, 0, 0, 0, st.total_tax_paid, st.total_tax_paid_real,
            st.ruecknahmeabschlag_summe, st.ruecknahmeabschlag_real_summe, []⟩
          st.portfolio).2.total_netto
        = (fifoSellLoop (rebalStepSpar p st.kumulierte_inflation_factor)
            (sumValues st.portfolio * p.rebalancing_rate)
            ⟨st.freistellungs_topf, 0, 0, 0, st.total_tax_paid, st.total_tax_paid_real,
              st.ruecknahmeabschlag_summe, st.ruecknahmeabschlag_real_summe, []⟩
            st.portfolio).2.total_verkauf
          - (fifoSellLoop (rebalStepSpar p st.kumulierte_inflation_factor)
              (sumValues st.portfolio * p.rebalancing_rate)
              ⟨st.freistellungs_topf, 0, 0, 0, st.total_tax_paid, st.total_tax_paid_real,
                st.ruecknahmeabschlag_summe, st.ruecknahmeabschlag_real_summe, []⟩
              st.portfolio).2.total_steuer
          - (fifoSellLoop (rebalStepSpar p st.kumulierte_inflation_factor)
              (sumValues st.portfolio * p.rebalancing_rate)
              ⟨st.freistellungs_topf, 0, 0, 0, st.total_tax_paid, st.total_tax_paid_real,
                st.ruecknahmeabschlag_summe, st.ruecknahmeabschlag_real_summe, []⟩
              st.portfolio).2.total_verkauf * p.ruecknahmeabschlag := by
  obtain ⟨sold, hs, hvk, hn⟩ := rebalLoop_conservation p st.kumulierte_inflation_factor
    st.portfolio (sumValues st.portfolio * p.rebalancing_rate)
    ⟨st.freistellungs_topf, 0, 0, 0, st.total_tax_paid, st.total_tax_paid_real,
      st.ruecknahmeabschlag_summe, st.ruecknahmeabschlag_real_summe, []⟩
  dsimp only at hs hvk hn
  rw [List.nil_append] at hs
  refine ⟨sold, hs, ?_, by simpa using hvk, by linarith [hn]⟩
  simp only [handleRebalancing, hv, hm, hr, hu]
  norm_num

/-! ## FIFO order and ledger sortedness (C4) -/

/-- The sale loop does not touch the ledger once `remaining ≤ 1e-9`. -/
theorem fifoLoop_stop {σ : Type} (step : σ → Lot → ℚ → ℚ × ℚ × σ)
    (remaining : ℚ) (st : σ) (ledger : List Lot) (h : remaining ≤ eps) :
    (fifoSellLoop step remaining st ledger).1 = ledger := by
  cases ledger with
  | nil => rfl
  | cons lot rest => simp [fifoSellLoop, h]

/-- Every lot left by the sale loop carries the acquisition date of some
lot of the input ledger. -/
theorem fifoLoop_dates {σ : Type} (step : σ → Lot → ℚ → ℚ × ℚ × σ) :
    ∀ (ledger : List Lot) (remaining : ℚ) (st : σ),
      ∀ l' ∈ (fifoSellLoop step remaining st ledger).1, ∃ l ∈ ledger, l'.date = l.date := by
  intro ledger
  induction ledger with
  | nil => intro remaining st l' hl'; simp [fifoSellLoop] at hl'
  | cons lot rest ih =>
    intro remaining st l' hl'
    by_cases h1 : remaining ≤ eps
    · simp only [fifoSellLoop, if_pos h1] at hl'
      exact ⟨l', hl', rfl⟩
    · by_cases h2 : lot.value ≤ 0
      · simp only [fifoSellLoop, if_neg h1, if_pos h2] at hl'
        obtain ⟨l, hl, he⟩ := ih remaining st l' hl'
        exact ⟨l, List.mem_cons_of_mem _ hl, he⟩
      · simp only [fifoSellLoop, if_neg h1, if_neg h2] at hl'
        rcases List.mem_append.mp hl' with h | h
        · by_cases h3 : eps < lot.value - min lot.value remaining
          · simp only [if_pos h3, List.mem_singleton] at h
            subst h
            exact ⟨lot, List.mem_cons_self lot rest, rfl⟩
          · simp only [if_neg h3] at h
            exact absurd h (List.not_mem_nil l')
        · obtain ⟨l, hl, he⟩ := ih (remaining - min lot.value remaining)
            ((step st lot (min lot.value remaining)).2.2) l' h
          exact ⟨l, List.mem_cons_of_mem _ hl, he⟩

/-- The sale loop preserves sortedness by acquisition date. -/
theorem fifoLoop_sorted {σ : Type} (step : σ → Lot → ℚ → ℚ × ℚ × σ) :
    ∀ (ledger : List Lot) (remaining : ℚ) (st : σ),
      List.Sorted (fun a b : Lot => a.date ≤ b.date) ledger →
      List.Sorted (fun a b : Lot => a.date ≤ b.date)
        (fifoSellLoop step remaining st ledger).1 := by
  intro ledger
  induction ledger with
  | nil => intro remaining st _; simp [fifoSellLoop]
  | cons lot rest ih =>
    intro remaining st hsort
    rw [List.sorted_cons] at hsort
    obtain ⟨hall, hrest⟩ := hsort
    by_cases h1 : remaining ≤ eps
    · simp only [fifoSellLoop, if_pos h1]
      exact List.sorted_cons.mpr ⟨hall, hrest⟩
    · by_cases h2 : lot.value ≤ 0
      · simp only [fifoSellLoop, if_neg h1, if_pos h2]
        exact ih remaining st hrest
      · simp only [fifoSellLoop, if_neg h1, if_neg h2]
        have hloop := ih (remaining - min lot.value remaining)
          ((step st lot (min lot.value remaining)).2.2) hrest
        by_cases h3 : eps < lot.value - min lot.value remaining
        · simp only [if_pos h3, List.singleton_append]
          refine List.sorted_cons.mpr ⟨?_, hloop⟩
          intro b hb
          obtain ⟨l, hl, he⟩ := fifoLoop_dates step rest
            (remaining - min lot.value remaining)
            ((step st lot (min lot.value remaining)).2.2) b hb
          have : lot.date ≤ l.date := hall l hl
          simpa [he] using this
        · simp only [if_neg h3, List.nil_append]
          exact hloop

/-- Structure of one FIFO sale: the ledger afterwards is a possibly
empty front (at most one lot: the partially consumed one, carrying the
date of a consumed lot) followed by an untouched suffix of the input —
the consumed lots form a prefix of the ledger. -/
theorem fifoLoop_structure {σ : Type} (step : σ → Lot → ℚ → ℚ × ℚ × σ) :
    ∀ (ledger : List Lot) (remaining : ℚ) (st : σ),
      ∃ (n : ℕ) (front : List Lot),
        (fifoSellLoop step remaining st ledger).1 = front ++ ledger.drop n ∧
        front.length ≤ 1 ∧
        ∀ l' ∈ front, ∃ l ∈ ledger.take n, l'.date = l.date := by
  intro ledger
  induction ledger with
  | nil =>
    intro remaining st
    exact ⟨0, [], by simp [fifoSellLoop], by simp, by simp⟩
  | cons lot rest ih =>
    intro remaining st
    by_cases h1 : remaining ≤ eps
    · exact ⟨0, [], by simp [fifoSellLoop, h1], by simp, by simp⟩
    · by_cases h2 : lot.value ≤ 0
      · obtain ⟨n, front, he, hlen, hd⟩ := ih remaining st
        refine ⟨n + 1, front, ?_, hlen, ?_⟩
        · simpa only [fifoSellLoop, if_neg h1, if_pos h2, List.drop_succ_cons] using he
        · intro l' hl'
          obtain ⟨l, hl, hh⟩ := hd l' hl'
          exact ⟨l, by simpa only [List.take_succ_cons] using List.mem_cons_of_mem lot hl, hh⟩
      · rcases le_total lot.value remaining with hle | hge
        · have hsell : min lot.value remaining = lot.value := min_eq_left hle
          obtain ⟨n, front, he, hlen, hd⟩ := ih (remaining - min lot.value remaining)
            ((step st lot (min lot.value remaining)).2.2)
        
          refine ⟨n + 1, front, ?_, hlen, ?_⟩
          · have hnk : ¬ eps < lot.value - min lot.value remaining := by
              rw [hsell]
              norm_num [eps]
            simp only [fifoSellLoop, if_neg h1, if_neg h2]
            rw [if_neg hnk, List.nil_append, List.drop_succ_cons]
            exact he
          · intro l' hl'
            obtain ⟨l, hl, hh⟩ := hd l' hl'
            exact ⟨l, by simpa only [List.take_succ_cons] using List.mem_cons_of_mem lot hl, hh⟩
        · have hsell : min lot.value remaining = remaining := min_eq_right hge
          have hstop : remaining - min lot.value remaining ≤ eps := by
            rw [hsell]
            norm_num [eps]
          refine ⟨1,
            if eps < lot.value - min lot.value remaining then
              [{ lot with value := lot.value - min lot.value remaining, amount_invested := (step st lot (min lot.value remaining)).1, vorab := (step st lot (min lot.value remaining)).2.1 }]
            else [], ?_, ?_, ?_⟩
          · simp only [fifoSellLoop, if_neg h1, if_neg h2]
            rw [fifoLoop_stop step _ _ rest hstop, List.drop_one, List.tail_cons]
          · split <;> simp
          · intro l' hl'
            by_cases h3 : eps < lot.value - min lot.value remaining
            · simp only [if_pos h3, List.mem_singleton] at hl'
              subst hl'
              exact ⟨lot, by simp, rfl⟩
            · simp only [if_neg h3] at hl'
              exact absurd hl' (List.not_mem_nil l')

/-- Withdrawal sales preserve ledger sortedness. -/
theorem handleWithdrawals_sorted (p : Params) (month : ℕ) (st : SimState)
    (hsort : List.Sorted (fun a b : Lot => a.date ≤ b.date) st.portfolio) :
    List.Sorted (fun a b : Lot => a.date ≤ b.date)
      (handleWithdrawals p month st).portfolio := by
  simp only [handleWithdrawals]
  split_ifs
  · exact hsort
  · exact hsort
  · exact hsort
  · exact fifoLoop_sorted _ st.portfolio _ _ hsort

/-- Rebalancing sales preserve ledger sortedness when every lot was
acquired no later than the rebalancing month (the reinvested lot is
dated with the current month and appended at the back). -/
theorem handleRebalancing_sorted (p : Params) (month : ℕ) (st : SimState)
    (hsort : List.Sorted (fun a b : Lot => a.date ≤ b.date) st.portfolio)
    (hdates : ∀ l ∈ st.portfolio, l.date ≤ month) :
    List.Sorted (fun a b : Lot => a.date ≤ b.date)
      (handleRebalancing p month st).portfolio := by
  have hloop := fifoLoop_sorted (rebalStepSpar p st.kumulierte_inflation_factor)
    st.portfolio (sumValues st.portfolio * p.rebalancing_rate)
    ⟨st.freistellungs_topf, 0, 0, 0, st.total_tax_paid, st.total_tax_paid_real,
      st.ruecknahmeabschlag_summe, st.ruecknahmeabschlag_real_summe, []⟩ hsort
  simp only [handleRebalancing]
  split_ifs with hcond humz hnetto
  · dsimp only
    refine List.pairwise_append.mpr ⟨hloop, by simp, ?_⟩
    intro a ha b hb
    simp only [List.mem_singleton] at hb
    subst hb
    obtain ⟨l, hl, he⟩ := fifoLoop_dates (rebalStepSpar p st.kumulierte_inflation_factor)
      st.portfolio (sumValues st.portfolio * p.rebalancing_rate)
      ⟨st.freistellungs_topf, 0, 0, 0, st.total_tax_paid, st.total_tax_paid_real,
        st.ruecknahmeabschlag_summe, st.ruecknahmeabschlag_real_summe, []⟩ a ha
    simpa [he] using hdates l hl
  · dsimp only
    exact hloop
  · exact hsort
  · exact hsort

/-- C4: FIFO consumption.  (i) After any FIFO sale the resulting ledger
is a front of at most one lot — the partially consumed remnant, carrying
the date of a consumed lot and re-enqueued at the front — followed by an
untouched suffix of the input, so the consumed lots always form a prefix
(the oldest lots first). (ii) Any FIFO sale preserves ordering by
acquisition date.  (iii) Both the withdrawal and the rebalancing
operation leave the ledger ordered by acquisition date ascending,
whenever every held lot was acquired no later than the current month. -/
theorem C4_fifo_consumption_order :
    (∀ (σ : Type) (step : σ → Lot → ℚ → ℚ × ℚ × σ) (ledger : List Lot)
        (remaining : ℚ) (st : σ),
      ∃ (n : ℕ) (front : List Lot),
        (fifoSellLoop step remaining st ledger).1 = front ++ ledger.drop n ∧
        front.length ≤ 1 ∧
        ∀ l' ∈ front, ∃ l ∈ ledger.take n, l'.date = l.date) ∧
    (∀ (σ : Type) (step : σ → Lot → ℚ → ℚ × ℚ × σ) (ledger : List Lot)
        (remaining : ℚ) (st : σ),
      List.Sorted (fun a b : Lot => a.date ≤ b.date) ledger →
      List.Sorted (fun a b : Lot => a.date ≤ b.date)
        (fifoSellLoop step remaining st ledger).1) ∧
    (∀ (p : Params) (month : ℕ) (st : SimState),
      List.Sorted (fun a b : Lot => a.date ≤ b.date) st.portfolio →
      (∀ l ∈ st.portfolio, l.date ≤ month) →
      List.Sorted (fun a b : Lot => a.date ≤ b.date)
          (handleWithdrawals p month st).portfolio ∧
      List.Sorted (fun a b : Lot => a.date ≤ b.date)
          (handleRebalancing p month st).portfolio) := by
  refine ⟨fun σ step ledger remaining st => fifoLoop_structure step ledger remaining st,
          fun σ step ledger remaining st h => fifoLoop_sorted step ledger remaining st h,
          fun p month st hsort hdates =>
            ⟨handleWithdrawals_sorted p month st hsort,
             handleRebalancing_sorted p month st hsort hdates⟩⟩

/-- Witness for C4: a concrete two-lot sorted ledger stays sorted under
a withdrawal sale of 150 and under the handler calls. -/
theorem C4_fifo_consumption_order_witness :
    List.Sorted (fun a b : Lot => a.date ≤ b.date)
      (fifoSellLoop (withdrawStepSpar pC1 0) 150 ⟨0, 0, 0⟩
        [⟨0, 100, 100, 100, 0⟩, ⟨3, 50, 80, 80, 0⟩]).1 := by
  exact C4_fifo_consumption_order.2.1 WdState (withdrawStepSpar pC1 0)
    [⟨0, 100, 100, 100, 0⟩, ⟨3, 50, 80, 80, 0⟩] 150 ⟨0, 0, 0⟩
    (by simp [List.sorted_cons])

/-- Witness for C7: the net-reinvested identity holds in the concrete
one-lot December rebalancing. -/
theorem C7_rebalancing_conservation_witness :
    (fifoSellLoop (rebalStepSpar pC7 stC7.kumulierte_inflation_factor)
        (sumValues stC7.portfolio * pC7.rebalancing_rate)
        ⟨stC7.freistellungs_topf, 0, 0, 0, stC7.total_tax_paid, stC7.total_tax_paid_real,
          stC7.ruecknahmeabschlag_summe, stC7.ruecknahmeabschlag_real_summe, []⟩
        stC7.portfolio).2.total_netto
      = (fifoSellLoop (rebalStepSpar pC7 stC7.kumulierte_inflation_factor)
          (sumValues stC7.portfolio * pC7.rebalancing_rate)
          ⟨stC7.freistellungs_topf, 0, 0, 0, stC7.total_tax_paid, stC7.total_tax_paid_real,
            stC7.ruecknahmeabschlag_summe, stC7.ruecknahmeabschlag_real_summe, []⟩
          stC7.portfolio).2.total_verkauf
        - (fifoSellLoop (rebalStepSpar pC7 stC7.kumulierte_inflation_factor)
            (sumValues stC7.portfolio * pC7.rebalancing_rate)
            ⟨stC7.freistellungs_topf, 0, 0, 0, stC7.total_tax_paid, stC7.total_tax_paid_real,
              stC7.ruecknahmeabschlag_summe, stC7.ruecknahmeabschlag_real_summe, []⟩
            stC7.portfolio).2.total_steuer
        - (fifoSellLoop (rebalStepSpar pC7 stC7.kumulierte_inflation_factor)
            (sumValues stC7.portfolio * pC7.rebalancing_rate)
            ⟨stC7.freistellungs_topf, 0, 0, 0, stC7.total_tax_paid, stC7.total_tax_paid_real,
              stC7.ruecknahmeabschlag_summe, stC7.ruecknahmeabschlag_real_summe, []⟩
            stC7.portfolio).2.total_verkauf * pC7.ruecknahmeabschlag := by
  obtain ⟨sold, hs, hlog, hsum, hnet⟩ := C7_rebalancing_conservation pC7 11 stC7
    (by norm_num [pC7, baseParams]) (by norm_num) (by norm_num [pC7, baseParams])
    (by norm_num [sumValues, stC7, initStateRaw, pC7, baseParams])
  exact hnet

/-! ## The allowance bucket (C5) -/

/-- Deposits never touch the allowance bucket. -/
theorem handleMonthlyInvestment_topf (p : Params) (month : ℕ) (st : SimState) :
    (handleMonthlyInvestment p month st).freistellungs_topf = st.freistellungs_topf := by
  have h1 : ∀ s : SimState, (handleDynamik p month s).freistellungs_topf = s.freistellungs_topf := by
    intro s
    simp only [handleDynamik]
    split_ifs <;> rfl
  have h2 : ∀ s : SimState, (handleSonderzahlung p month s).freistellungs_topf = s.freistellungs_topf := by
    intro s
    simp only [handleSonderzahlung]
    split_ifs <;> rfl
  have h3 : ∀ s : SimState, (handleSparrate p month s).freistellungs_topf = s.freistellungs_topf := by
    intro s
    simp only [handleSparrate]
    split_ifs <;> rfl
  simp only [handleMonthlyInvestment, h1, h2, h3]

/-- Fee deductions never touch the allowance bucket. -/
theorem handleCosts_topf (p : Params) (month : ℕ) (st : SimState) :
    (handleCosts p month st).freistellungs_topf = st.freistellungs_topf := by
  have h1 : ∀ d (s : SimState), (handleCostsStueck p month d s).freistellungs_topf = s.freistellungs_topf := by
    intro d s
    simp only [handleCostsStueck]
    split_ifs <;> rfl
  have h2 : ∀ d (s : SimState), (handleCostsProportional p d s).freistellungs_topf = s.freistellungs_topf := by
    intro d s
    simp only [handleCostsProportional]
    split_ifs <;> rfl
  have h3 : ∀ d (s : SimState), (handleCostsAbschluss p month d s).freistellungs_topf = s.freistellungs_topf := by
    intro d s
    simp only [handleCostsAbschluss]
    split_ifs <;> rfl
  have h4 : ∀ d (s : SimState), (handleCostsVerwaltung p month d s).freistellungs_topf = s.freistellungs_topf := by
    intro d s
    simp only [handleCostsVerwaltung]
    split_ifs <;> rfl
  simp only [handleCosts]
  split_ifs <;> simp only [h1, h2, h3, h4]

/-- One accrual step consumes at most the bucket and never drives it
negative. -/
theorem accrualLotStep_topf (p : Params) (inflFactor : ℚ) (month : ℕ)
    (st : AccSt) (lot : Lot) (h : 0 ≤ st.topf) :
    0 ≤ (accrualLotStep p inflFactor month st lot).2.topf ∧
    (accrualLotStep p inflFactor month st lot).2.topf ≤ st.topf := by
  have hused : 0 ≤ vorabFreibetragUsed p st.topf lot ∧ vorabFreibetragUsed p st.topf lot ≤ st.topf :=
    ⟨le_min h (le_max_left 0 _), min_le_left _ _⟩
  constructor <;>
    · simp only [accrualLotStep]
      split_ifs <;> dsimp only <;> linarith [hused.1, hused.2]

/-- The accrual loop consumes at most the bucket and never drives it
negative. -/
theorem accrualLoop_topf (p : Params) (inflFactor : ℚ) (month : ℕ) :
    ∀ (ledger : List Lot) (st : AccSt), 0 ≤ st.topf →
      0 ≤ (accrualLoop p inflFactor month st ledger).2.topf ∧
      (accrualLoop p inflFactor month st ledger).2.topf ≤ st.topf := by
  intro ledger
  induction ledger with
  | nil => intro st h; exact ⟨h, le_refl _⟩
  | cons lot rest ih =>
    intro st h
    obtain ⟨h1, h2⟩ := accrualLotStep_topf p inflFactor month st lot h
    obtain ⟨h3, h4⟩ := ih ((accrualLotStep p inflFactor month st lot).2) h1
    exact ⟨by simpa [accrualLoop] using h3, by simp only [accrualLoop]; linarith⟩

/-- Monotone-bucket property of a generic FIFO sale loop whose step
consumes at most the projected bucket. -/
theorem fifoLoop_measure {σ : Type} (step : σ → Lot → ℚ → ℚ × ℚ × σ) (f : σ → ℚ)
    (hstep : ∀ (st : σ) (lot : Lot) (sell : ℚ), 0 ≤ f st →
      0 ≤ f ((step st lot sell).2.2) ∧ f ((step st lot sell).2.2) ≤ f st) :
    ∀ (ledger : List Lot) (remaining : ℚ) (st : σ), 0 ≤ f st →
      0 ≤ f (fifoSellLoop step remaining st ledger).2 ∧
      f (fifoSellLoop step remaining st ledger).2 ≤ f st := by
  intro ledger
  induction ledger with
  | nil => intro remaining st h; exact ⟨h, le_refl _⟩
  | cons lot rest ih =>
    intro remaining st h
    by_cases h1 : remaining ≤ eps
    · simp only [fifoSellLoop, if_pos h1]
      exact ⟨h, le_refl _⟩
    · by_cases h2 : lot.value ≤ 0
      · simp only [fifoSellLoop, if_neg h1, if_pos h2]
        exact ih remaining st h
      · simp only [fifoSellLoop, if_neg h1, if_neg h2]
        obtain ⟨h3, h4⟩ := hstep st lot (min lot.value remaining) h
        obtain ⟨h5, h6⟩ := ih (remaining - min lot.value remaining)
          ((step st lot (min lot.value remaining)).2.2) h3
        exact ⟨h5, le_trans h6 h4⟩

/-- One rebalancing step consumes at most the bucket. -/
theorem rebalStep_topf (p : Params) (inflFactor : ℚ) (st : RebalState) (lot : Lot)
    (sell : ℚ) (h : 0 ≤ st.topf) :
    0 ≤ ((rebalStepSpar p inflFactor st lot sell).2.2).topf ∧
    ((rebalStepSpar p inflFactor st lot sell).2.2).topf ≤ st.topf := by
  have hf : 0 ≤ rebalFreibetragOf p st.topf lot sell ∧
      rebalFreibetragOf p st.topf lot sell ≤ st.topf :=
    ⟨le_min h (le_max_left 0 _), min_le_left _ _⟩
  constructor <;> · dsimp only [rebalStepSpar]; linarith [hf.1, hf.2]

/-- One withdrawal step consumes at most the bucket. -/
theorem withdrawStep_topf (p : Params) (month : ℕ) (st : WdState) (lot : Lot)
    (sell : ℚ) (h : 0 ≤ st.topf) :
    0 ≤ ((withdrawStepSpar p month st lot sell).2.2).topf ∧
    ((withdrawStepSpar p month st lot sell).2.2).topf ≤ st.topf := by
  have h1 := le_min h (le_max_left 0
    ((lot.value - lot.amount_invested) * (sell / lot.value) * (1 - p.teilfreistellung)
      - lot.vorab * (sell / lot.value)))
  have h2 := min_le_left st.topf (max 0
    ((lot.value - lot.amount_invested) * (sell / lot.value) * (1 - p.teilfreistellung)
      - lot.vorab * (sell / lot.value)))
  simp only [withdrawStepSpar]
  split_ifs <;> exact ⟨by dsimp only; linarith, by dsimp only; linarith⟩

/-- The accrual-tax handler consumes at most the bucket. -/
theorem handleTaxes_topf (p : Params) (month : ℕ) (st : SimState)
    (h : 0 ≤ st.freistellungs_topf) :
    0 ≤ (handleTaxes p month st).freistellungs_topf ∧
    (handleTaxes p month st).freistellungs_topf ≤ st.freistellungs_topf := by
  simp only [handleTaxes]
  split_ifs
  · dsimp only
    exact accrualLoop_topf p st.kumulierte_inflation_factor month st.portfolio
      ⟨st.freistellungs_topf, st.total_tax_paid, st.total_tax_paid_real, st.cashflows,
        st.real_cashflows, st.cashflow_dates⟩ h
  · exact ⟨h, le_refl _⟩

/-- The rebalancing handler consumes at most the bucket. -/
theorem handleRebalancing_topf (p : Params) (month : ℕ) (st : SimState)
    (h : 0 ≤ st.freistellungs_topf) :
    0 ≤ (handleRebalancing p month st).freistellungs_topf ∧
    (handleRebalancing p month st).freistellungs_topf ≤ st.freistellungs_topf := by
  have hloop := fifoLoop_measure (rebalStepSpar p st.kumulierte_inflation_factor) RebalState.topf
    (fun s lot sell hs => rebalStep_topf p st.kumulierte_inflation_factor s lot sell hs)
    st.portfolio (sumValues st.portfolio * p.rebalancing_rate)
    ⟨st.freistellungs_topf, 0, 0, 0, st.total_tax_paid, st.total_tax_paid_real,
      st.ruecknahmeabschlag_summe, st.ruecknahmeabschlag_real_summe, []⟩ h
  simp only [handleRebalancing]
  split_ifs <;> first
    | exact ⟨h, le_refl _⟩
    | exact hloop

/-- The withdrawal handler consumes at most the bucket. -/
theorem handleWithdrawals_topf (p : Params) (month : ℕ) (st : SimState)
    (h : 0 ≤ st.freistellungs_topf) :
    0 ≤ (handleWithdrawals p month st).freistellungs_topf ∧
    (handleWithdrawals p month st).freistellungs_topf ≤ st.freistellungs_topf := by
  have hloop := fifoLoop_measure (withdrawStepSpar p month) WdState.topf
    (fun s lot sell hs => withdrawStep_topf p month s lot sell hs)
    st.portfolio (entnahmebetragOf p month) ⟨st.freistellungs_topf, 0, 0⟩ h
  simp only [handleWithdrawals]
  split_ifs <;> first
    | exact ⟨h, le_refl _⟩
    | exact hloop

/-- C5: for every month step, the allowance bucket is never negative
after all of the month's consumptions; outside January the bucket never
increases across the month (it is only ever consumed), and in January it
never exceeds the freshly reset value — so between two January resets it
only decreases, and every consumption leaves it `≥ 0`. -/
theorem C5_allowance_bucket (p : Params) (dyn : Option (ℕ → ℚ)) (infl : ℕ → ℚ)
    (month : ℕ) (st : SimState)
    (htopf : 0 ≤ st.freistellungs_topf)
    (hjahr : 0 ≤ p.freistellungsauftrag_jahr)
    (hadj : 0 ≤ 1 + p.freistellungs_pauschbetrag_anpassung_rate) :
    0 ≤ (simuliereMonat p dyn infl month st).freistellungs_topf ∧
    (month % 12 ≠ 0 →
      (simuliereMonat p dyn infl month st).freistellungs_topf ≤ st.freistellungs_topf) ∧
    (month % 12 = 0 →
      (simuliereMonat p dyn infl month st).freistellungs_topf
        ≤ p.freistellungsauftrag_jahr * (1 + p.freistellungs_pauschbetrag_anpassung_rate) ^ (month / 12)) := by
  have hdec : ∀ s : SimState, (decemberSnapshotStep month s).freistellungs_topf = s.freistellungs_topf := by
    intro s
    simp only [decemberSnapshotStep]
    split <;> rfl
  have hlog : ∀ s : SimState, (appendLogStep month s).freistellungs_topf = s.freistellungs_topf :=
    fun s => rfl
  have h0 : 0 ≤ (januaryResetStep p month st).freistellungs_topf := by
    simp only [januaryResetStep]
    split_ifs
    · exact mul_nonneg hjahr (pow_nonneg hadj _)
    · exact htopf
  have e3 : (applyInflationStep infl month (applyMonthlyGrowthStep p dyn month
      (handleCosts p month (handleMonthlyInvestment p month (januaryResetStep p month st))))).freistellungs_topf
      = (januaryResetStep p month st).freistellungs_topf := by
    show (handleCosts p month (handleMonthlyInvestment p month (januaryResetStep p month st))).freistellungs_topf
      = (januaryResetStep p month st).freistellungs_topf
    rw [handleCosts_topf, handleMonthlyInvestment_topf]
  obtain ⟨a1, a2⟩ := handleTaxes_topf p month _ (by rw [e3]; exact h0)
  obtain ⟨b1, b2⟩ := handleRebalancing_topf p month _ a1
  obtain ⟨c1, c2⟩ := handleWithdrawals_topf p month _ b1
  rw [e3] at a2
  refine ⟨?_, ?_, ?_⟩
  · simp only [simuliereMonat, hdec, hlog]
    exact c1
  · intro hjan
    have hr : (januaryResetStep p month st).freistellungs_topf = st.freistellungs_topf := by
      simp [januaryResetStep, hjan]
    simp only [simuliereMonat, hdec, hlog]
    rw [hr] at a2
    linarith
  · intro hjan
    have hr : (januaryResetStep p month st).freistellungs_topf
        = p.freistellungsauftrag_jahr * (1 + p.freistellungs_pauschbetrag_anpassung_rate) ^ (month / 12) := by
      simp [januaryResetStep, hjan]
    simp only [simuliereMonat, hdec, hlog]
    rw [hr] at a2
    linarith

/-- Witness for C5 at the base Depot scenario in month 1. -/
theorem C5_allowance_bucket_witness :
    0 ≤ (simuliereMonat baseParams none (fun _ => 0) 1 (initStateRaw baseParams)).freistellungs_topf ∧
    (simuliereMonat baseParams none (fun _ => 0) 1 (initStateRaw baseParams)).freistellungs_topf
      ≤ (initStateRaw baseParams).freistellungs_topf := by
  have h := C5_allowance_bucket baseParams none (fun _ => 0) 1 (initStateRaw baseParams)
    (by norm_num [initStateRaw, baseParams]) (by norm_num [baseParams]) (by norm_num [baseParams])
  exact ⟨h.1, h.2.1 (by norm_num)⟩

/-- C6 counterexample: the claim asserts the ledger value sum stays
`≥ 0` after every step of every configuration, but the flat January
Stückkosten are deducted proportionally whenever the portfolio value is
positive, with no cap: a 10 € portfolio is charged the full 45 € in the
very first month and the ledger sum ends at −35. -/
theorem C6_sum_nonneg_counterexample :
    sumValues (simuliereMonat (initialisiereSimulation pC6 0).1 none (fun _ => 0) 0
      (initialisiereSimulation pC6 0).2).portfolio < 0 := by
  norm_num [simuliereMonat, januaryResetStep, handleMonthlyInvestment, handleDynamik,
    handleSonderzahlung, handleSparrate, handleCosts, handleCostsStueck,
    handleCostsProportional, handleCostsAbschluss, handleCostsVerwaltung,
    applyMonthlyGrowthStep, applyInflationStep, handleTaxes, accrualLoop, accrualLotStep,
    vorabSteuer, vorabZuVersteuern, vorabFreibetragUsed, zuVersteuernTemp, steuerbarerErtrag,
    fiktiverErtrag, realErtrag, handleRebalancing, handleWithdrawals, entnahmebetragJahr,
    entnahmebetragOf, planLookup, sortPlanDesc, appendLogStep, decemberSnapshotStep, mkLogRow,
    snapshotYearEnd, applyGrowth, applyAnteiligeKosten, sumValues,
    initialisiereSimulation, initialisiereParams, initStateRaw, fifoSellLoop,
    min_def, max_def, eps, pC6, baseParams]

/-- Any FIFO sale keeps every residual lot value and snapshot
nonnegative: the remnant's value is `value - min(value, remaining) ≥ 0`
and the snapshot field is untouched. -/
theorem fifoLoop_lots_nonneg {σ : Type} (step : σ → Lot → ℚ → ℚ × ℚ × σ) :
    ∀ (ledger : List Lot) (remaining : ℚ) (st : σ),
      (∀ lot ∈ ledger, 0 ≤ lot.value ∧ 0 ≤ lot.start_of_prev_year_value) →
      ∀ l' ∈ (fifoSellLoop step remaining st ledger).1,
        0 ≤ l'.value ∧ 0 ≤ l'.start_of_prev_year_value := by
  intro ledger
  induction ledger with
  | nil => intro remaining st _ l' hl'; simp [fifoSellLoop] at hl'
  | cons lot rest ih =>
    intro remaining st hn l' hl'
    by_cases h1 : remaining ≤ eps
    · simp only [fifoSellLoop, if_pos h1] at hl'
      exact hn l' hl'
    · by_cases h2 : lot.value ≤ 0
      · simp only [fifoSellLoop, if_neg h1, if_pos h2] at hl'
        exact ih remaining st (fun l hl => hn l (List.mem_cons_of_mem _ hl)) l' hl'
      · simp only [fifoSellLoop, if_neg h1, if_neg h2] at hl'
        rcases List.mem_append.mp hl' with h | h
        · by_cases h3 : eps < lot.value - min lot.value remaining
          · simp only [if_pos h3, List.mem_singleton] at h
            subst h
            refine ⟨?_, (hn lot (List.mem_cons_self lot rest)).2⟩
            have := min_le_left lot.value remaining
            dsimp only
            linarith
          · simp only [if_neg h3] at h
            exact absurd h (List.not_mem_nil l')
        · exact ih (remaining - min lot.value remaining)
            ((step st lot (min lot.value remaining)).2.2)
            (fun l hl => hn l (List.mem_cons_of_mem _ hl)) l' h

/-- The dynamics step keeps lots untouched and the savings rate
nonnegative. -/
theorem handleDynamik_inv (p : Params) (month : ℕ) (st : SimState)
    (hdyn : 0 ≤ 1 + p.monthly_dynamik_rate) (hmi : 0 ≤ st.monthly_investment) :
    (handleDynamik p month st).portfolio = st.portfolio ∧
    0 ≤ (handleDynamik p month st).monthly_investment := by
  simp only [handleDynamik]
  split_ifs
  · exact ⟨rfl, mul_nonneg hmi hdyn⟩
  · exact ⟨rfl, hmi⟩

/-- The extra-payment step appends at most one lot with nonnegative
value and snapshot, and leaves the savings rate alone. -/
theorem handleSonderzahlung_inv (p : Params) (month : ℕ) (st : SimState)
    (ha0 : 0 ≤ p.ausgabeaufschlag) (ha1 : p.ausgabeaufschlag ≤ 1)
    (hlots : ∀ lot ∈ st.portfolio, 0 ≤ lot.value ∧ 0 ≤ lot.start_of_prev_year_value) :
    (∀ lot ∈ (handleSonderzahlung p month st).portfolio,
      0 ≤ lot.value ∧ 0 ≤ lot.start_of_prev_year_value) ∧
    (handleSonderzahlung p month st).monthly_investment = st.monthly_investment := by
  simp only [handleSonderzahlung]
  by_cases h1 : ((month : ℚ) = p.sonderzahlung_jahr * 12) ∨
      (0 < p.regel_sonderzahlung_turnus_jahre ∧ 0 < month ∧
        month % (p.regel_sonderzahlung_turnus_jahre * 12) = 0)
  · rw [if_pos h1]
    set betrag := if ((month : ℚ) = p.sonderzahlung_jahr * 12) then p.sonderzahlung_betrag
      else p.regel_sonderzahlung_betrag with hbet
    by_cases h2 : 0 < betrag
    · rw [if_pos h2]
      have hb : 0 ≤ betrag := le_of_lt h2
      by_cases h3 : p.versicherung_modus
      · simp only [if_pos h3]
        refine ⟨?_, by trivial⟩
        intro lot hl
        rcases List.mem_append.mp hl with h | h
        · exact hlots lot h
        · simp only [List.mem_singleton] at h
          subst h
          exact ⟨hb, hb⟩
      · simp only [if_neg h3]
        refine ⟨?_, by trivial⟩
        intro lot hl
        rcases List.mem_append.mp hl with h | h
        · exact hlots lot h
        · simp only [List.mem_singleton] at h
          subst h
          have hnet : 0 ≤ betrag - betrag * p.ausgabeaufschlag := by nlinarith
          exact ⟨hnet, hnet⟩
    · rw [if_neg h2]
      exact ⟨hlots, rfl⟩
  · rw [if_neg h1]
    exact ⟨hlots, rfl⟩

/-- The regular-deposit step appends at most one lot with nonnegative
value and snapshot. -/
theorem handleSparrate_inv (p : Params) (month : ℕ) (st : SimState)
    (ha0 : 0 ≤ p.ausgabeaufschlag) (ha1 : p.ausgabeaufschlag ≤ 1)
    (hmi : 0 ≤ st.monthly_investment)
    (hlots : ∀ lot ∈ st.portfolio, 0 ≤ lot.value ∧ 0 ≤ lot.start_of_prev_year_value) :
    (∀ lot ∈ (handleSparrate p month st).portfolio,
      0 ≤ lot.value ∧ 0 ≤ lot.start_of_prev_year_value) ∧
    (handleSparrate p month st).monthly_investment = st.monthly_investment := by
  simp only [handleSparrate]
  split_ifs
  · refine ⟨?_, rfl⟩
    intro lot hl
    rcases List.mem_append.mp hl with h | h
    · exact hlots lot h
    · simp only [List.mem_singleton] at h
      subst h
      have hnet : 0 ≤ st.monthly_investment - st.monthly_investment * p.ausgabeaufschlag := by
        nlinarith
      exact ⟨hnet, hnet⟩
  · exact ⟨hlots, rfl⟩

/-- With zero Stückkosten the Stückkosten block is the identity. -/
theorem handleCostsStueck_id (p : Params) (month : ℕ) (d : ℚ) (st : SimState)
    (h : p.stueckkosten = 0) : handleCostsStueck p month d st = st := by
  simp [handleCostsStueck, h]

/-- The proportional fee block keeps every lot value and snapshot
nonnegative in Depot mode when the fee rates are sane. -/
theorem handleCostsProportional_inv (p : Params) (d : ℚ) (st : SimState)
    (hv : p.versicherung_modus = false)
    (ht : 0 ≤ p.ter) (hs : 0 ≤ p.serviceentgelt) (hts : p.ter + p.serviceentgelt ≤ 12)
    (hlots : ∀ lot ∈ st.portfolio, 0 ≤ lot.value ∧ 0 ≤ lot.start_of_prev_year_value) :
    (∀ lot ∈ (handleCostsProportional p d st).portfolio,
      0 ≤ lot.value ∧ 0 ≤ lot.start_of_prev_year_value) ∧
    (handleCostsProportional p d st).monthly_investment = st.monthly_investment := by
  simp only [handleCostsProportional, hv, Bool.false_eq_true, if_false]
  split_ifs with hd
  · refine ⟨?_, by trivial⟩
    intro lot hl
    simp only [applyAnteiligeKosten, List.mem_map] at hl
    obtain ⟨e, he, heq⟩ := hl
    subst heq
    obtain ⟨hev, hes⟩ := hlots e he
    refine ⟨?_, hes⟩
    dsimp only
    have hkey : (d * p.ter / 12 + d * p.serviceentgelt / 12 + 0) * (e.value / d)
        = e.value * ((p.ter + p.serviceentgelt) / 12) := by
      field_simp
      ring
    rw [hkey]
    nlinarith
  · exact ⟨hlots, by trivial⟩

/-- In Depot mode with zero Stückkosten, the whole fee handler keeps
every lot value and snapshot nonnegative. -/
theorem handleCosts_inv (p : Params) (month : ℕ) (st : SimState)
    (hv : p.versicherung_modus = false) (hst : p.stueckkosten = 0)
    (ht : 0 ≤ p.ter) (hs : 0 ≤ p.serviceentgelt) (hts : p.ter + p.serviceentgelt ≤ 12)
    (hlots : ∀ lot ∈ st.portfolio, 0 ≤ lot.value ∧ 0 ≤ lot.start_of_prev_year_value) :
    (∀ lot ∈ (handleCosts p month st).portfolio,
      0 ≤ lot.value ∧ 0 ≤ lot.start_of_prev_year_value) ∧
    (handleCosts p month st).monthly_investment = st.monthly_investment := by
  simp only [handleCosts, hv, handleCostsStueck_id p month _ st hst, Bool.false_eq_true, if_false]
  exact handleCostsProportional_inv p (sumValues st.portfolio) st hv ht hs hts hlots

/-- The accrual tax charged on a lot never exceeds the lot's value when
the rates are within bounds, so the value deduction keeps it
nonnegative; the snapshot field is untouched. -/
theorem accrualLotStep_value (p : Params) (inflFactor : ℚ) (month : ℕ)
    (st : AccSt) (lot : Lot)
    (htf0 : 0 ≤ p.teilfreistellung) (htf1 : p.teilfreistellung ≤ 1)
    (hr0 : 0 ≤ p.full_tax_rate) (hr1 : p.full_tax_rate ≤ 1)
    (htopf : 0 ≤ st.topf) (hv : 0 ≤ lot.value) (hs : 0 ≤ lot.start_of_prev_year_value) :
    0 ≤ (accrualLotStep p inflFactor month st lot).1.value ∧
    (accrualLotStep p inflFactor month st lot).1.start_of_prev_year_value
      = lot.start_of_prev_year_value := by
  have hzv0 : 0 ≤ vorabZuVersteuern p st.topf lot := le_max_left _ _
  have hused : 0 ≤ vorabFreibetragUsed p st.topf lot := le_min htopf (le_max_left _ _)
  have htemp : zuVersteuernTemp p lot ≤ lot.value := by
    rw [zuVersteuernTemp]
    rcases le_or_lt (steuerbarerErtrag p lot) 0 with hng | hpos
    · have := mul_nonpos_of_nonpos_of_nonneg hng (by linarith : (0:ℚ) ≤ 1 - p.teilfreistellung)
      linarith
    · have h2 : steuerbarerErtrag p lot ≤ lot.value := by
        have h3 : steuerbarerErtrag p lot ≤ realErtrag lot := min_le_right _ _
        have h4 : realErtrag lot ≤ lot.value := by
          rw [realErtrag]
          linarith
        linarith
      nlinarith
  have hzv : vorabZuVersteuern p st.topf lot ≤ lot.value := by
    rw [vorabZuVersteuern, max_le_iff]
    exact ⟨hv, by linarith⟩
  have hsteuer0 : 0 ≤ vorabSteuer p st.topf lot := mul_nonneg hzv0 hr0
  have hsteuer : vorabSteuer p st.topf lot ≤ lot.value := by
    rw [vorabSteuer]
    nlinarith
  simp only [accrualLotStep]
  split_ifs <;> exact ⟨by dsimp only; linarith, by dsimp only⟩

/-- The accrual loop keeps every lot value and snapshot nonnegative. -/
theorem accrualLoop_values (p : Params) (inflFactor : ℚ) (month : ℕ)
    (htf0 : 0 ≤ p.teilfreistellung) (htf1 : p.teilfreistellung ≤ 1)
    (hr0 : 0 ≤ p.full_tax_rate) (hr1 : p.full_tax_rate ≤ 1) :
    ∀ (ledger : List Lot) (st : AccSt), 0 ≤ st.topf →
      (∀ lot ∈ ledger, 0 ≤ lot.value ∧ 0 ≤ lot.start_of_prev_year_value) →
      ∀ l' ∈ (accrualLoop p inflFactor month st ledger).1,
        0 ≤ l'.value ∧ 0 ≤ l'.start_of_prev_year_value := by
  intro ledger
  induction ledger with
  | nil => intro st _ _ l' hl'; simp [accrualLoop] at hl'
  | cons lot rest ih =>
    intro st htopf hn l' hl'
    obtain ⟨hv, hs⟩ := hn lot (List.mem_cons_self lot rest)
    obtain ⟨hval, hsnap⟩ := accrualLotStep_value p inflFactor month st lot htf0 htf1 hr0 hr1 htopf hv hs
    obtain ⟨ht0, _⟩ := accrualLotStep_topf p inflFactor month st lot htopf
    simp only [accrualLoop, List.mem_cons] at hl'
    rcases hl' with h | h
    · subst h
      exact ⟨hval, by rw [hsnap]; exact hs⟩
    · exact ih ((accrualLotStep p inflFactor month st lot).2) ht0
        (fun l hl => hn l (List.mem_cons_of_mem _ hl)) l' h

/-- The accrual-tax handler keeps every lot value and snapshot
nonnegative. -/
theorem handleTaxes_inv (p : Params) (month : ℕ) (st : SimState)
    (htf0 : 0 ≤ p.teilfreistellung) (htf1 : p.teilfreistellung ≤ 1)
    (hr0 : 0 ≤ p.full_tax_rate) (hr1 : p.full_tax_rate ≤ 1)
    (htopf : 0 ≤ st.freistellungs_topf)
    (hlots : ∀ lot ∈ st.portfolio, 0 ≤ lot.value ∧ 0 ≤ lot.start_of_prev_year_value) :
    ∀ lot ∈ (handleTaxes p month st).portfolio,
      0 ≤ lot.value ∧ 0 ≤ lot.start_of_prev_year_value := by
  simp only [handleTaxes]
  split_ifs
  · exact accrualLoop_values p st.kumulierte_inflation_factor month htf0 htf1 hr0 hr1
      st.portfolio _ htopf hlots
  · exact hlots

/-- The rebalancing handler keeps every lot value and snapshot
nonnegative (residuals stay nonnegative, the reinvested lot is created
with a positive value). -/
theorem handleRebalancing_inv (p : Params) (month : ℕ) (st : SimState)
    (hlots : ∀ lot ∈ st.portfolio, 0 ≤ lot.value ∧ 0 ≤ lot.start_of_prev_year_value) :
    ∀ lot ∈ (handleRebalancing p month st).portfolio,
      0 ≤ lot.value ∧ 0 ≤ lot.start_of_prev_year_value := by
  have hloop := fifoLoop_lots_nonneg (rebalStepSpar p st.kumulierte_inflation_factor)
    st.portfolio (sumValues st.portfolio * p.rebalancing_rate)
    ⟨st.freistellungs_topf, 0, 0, 0, st.total_tax_paid, st.total_tax_paid_real,
      st.ruecknahmeabschlag_summe, st.ruecknahmeabschlag_real_summe, []⟩ hlots
  simp only [handleRebalancing]
  split_ifs with h1 h2 h3
  · intro lot hl
    rcases List.mem_append.mp hl with h | h
    · exact hloop lot h
    · simp only [List.mem_singleton] at h
      subst h
      have heps : (0 : ℚ) < eps := by norm_num [eps]
      have h4 := h3
      constructor <;> · dsimp only; linarith
  · exact hloop
  · exact hlots
  · exact hlots

/-- The withdrawal handler keeps every lot value and snapshot
nonnegative. -/
theorem handleWithdrawals_inv (p : Params) (month : ℕ) (st : SimState)
    (hlots : ∀ lot ∈ st.portfolio, 0 ≤ lot.value ∧ 0 ≤ lot.start_of_prev_year_value) :
    ∀ lot ∈ (handleWithdrawals p month st).portfolio,
      0 ≤ lot.value ∧ 0 ≤ lot.start_of_prev_year_value := by
  have hloop := fifoLoop_lots_nonneg (withdrawStepSpar p month)
    st.portfolio (entnahmebetragOf p month) ⟨st.freistellungs_topf, 0, 0⟩ hlots
  simp only [handleWithdrawals]
  split_ifs <;> first
    | exact hlots
    | exact hloop

/-- The January reset leaves ledger and savings rate untouched. -/
theorem januaryResetStep_frame (p : Params) (month : ℕ) (st : SimState) :
    (januaryResetStep p month st).portfolio = st.portfolio ∧
    (januaryResetStep p month st).monthly_investment = st.monthly_investment := by
  simp only [januaryResetStep]
  split <;> exact ⟨rfl, rfl⟩

/-- The accrual-tax handler leaves the savings rate untouched. -/
theorem handleTaxes_mi (p : Params) (month : ℕ) (st : SimState) :
    (handleTaxes p month st).monthly_investment = st.monthly_investment := by
  simp only [handleTaxes]
  split_ifs <;> rfl

/-- The rebalancing handler leaves the savings rate untouched. -/
theorem handleRebalancing_mi (p : Params) (month : ℕ) (st : SimState) :
    (handleRebalancing p month st).monthly_investment = st.monthly_investment := by
  simp only [handleRebalancing]
  split_ifs <;> rfl

/-- The withdrawal handler leaves the savings rate untouched. -/
theorem handleWithdrawals_mi (p : Params) (month : ℕ) (st : SimState) :
    (handleWithdrawals p month st).monthly_investment = st.monthly_investment := by
  simp only [handleWithdrawals]
  split_ifs <;> rfl

/-- Growth with a return `≥ -1` keeps lot values and snapshots
nonnegative. -/
theorem applyGrowth_inv (r : ℚ) (hr : -1 ≤ r) (l : List Lot)
    (h : ∀ lot ∈ l, 0 ≤ lot.value ∧ 0 ≤ lot.start_of_prev_year_value) :
    ∀ lot ∈ applyGrowth r l, 0 ≤ lot.value ∧ 0 ≤ lot.start_of_prev_year_value := by
  intro lot hl
  simp only [applyGrowth, List.mem_map] at hl
  obtain ⟨e, he, heq⟩ := hl
  subst heq
  obtain ⟨hev, hes⟩ := h e he
  exact ⟨by dsimp only; nlinarith, hes⟩

/-- The December snapshot keeps lot values and snapshots nonnegative. -/
theorem snapshotYearEnd_inv (l : List Lot)
    (h : ∀ lot ∈ l, 0 ≤ lot.value ∧ 0 ≤ lot.start_of_prev_year_value) :
    ∀ lot ∈ snapshotYearEnd l, 0 ≤ lot.value ∧ 0 ≤ lot.start_of_prev_year_value := by
  intro lot hl
  simp only [snapshotYearEnd, List.mem_map] at hl
  obtain ⟨e, he, heq⟩ := hl
  subst heq
  obtain ⟨hev, _⟩ := h e he
  exact ⟨hev, hev⟩

/-- A ledger of nonnegative lots has a nonnegative value sum. -/
theorem sumValues_nonneg (l : List Lot)
    (h : ∀ lot ∈ l, 0 ≤ lot.value ∧ 0 ≤ lot.start_of_prev_year_value) :
    0 ≤ sumValues l := by
  rw [sumValues]
  apply List.sum_nonneg
  intro x hx
  obtain ⟨e, he, heq⟩ := List.mem_map.mp hx
  subst heq
  exact (h e he).1

/-- C6 amended: the unconditional claim fails (see the counterexample:
flat Stückkosten can drive the sum negative), but for every Depot
configuration without flat fees and with loads, fee rates and tax rates
in their natural ranges, every per-period step — deposits, fee
deduction, growth, accrual tax, rebalancing, withdrawal, and the full
month — keeps every lot value nonnegative and hence the ledger value sum
`≥ 0`. -/
theorem C6_portfolio_sum_nonneg (p : Params) (dyn : Option (ℕ → ℚ)) (infl : ℕ → ℚ)
    (month : ℕ) (st : SimState) (hp : SaneDepot p)
    (hret : -1 ≤ (match dyn with | some f => f month | none => p.monthly_return))
    (hinv : InvC6 st) :
    0 ≤ sumValues (handleMonthlyInvestment p month (januaryResetStep p month st)).portfolio ∧
    0 ≤ sumValues (handleCosts p month (handleMonthlyInvestment p month
          (januaryResetStep p month st))).portfolio ∧
    0 ≤ sumValues (applyMonthlyGrowthStep p dyn month (handleCosts p month
          (handleMonthlyInvestment p month (januaryResetStep p month st)))).portfolio ∧
    0 ≤ sumValues (handleTaxes p month (applyInflationStep infl month
          (applyMonthlyGrowthStep p dyn month (handleCosts p month
            (handleMonthlyInvestment p month (januaryResetStep p month st)))))).portfolio ∧
    0 ≤ sumValues (handleRebalancing p month (handleTaxes p month (applyInflationStep infl month
          (applyMonthlyGrowthStep p dyn month (handleCosts p month
            (handleMonthlyInvestment p month (januaryResetStep p month st))))))).portfolio ∧
    0 ≤ sumValues (handleWithdrawals p month (handleRebalancing p month (handleTaxes p month
          (applyInflationStep infl month (applyMonthlyGrowthStep p dyn month (handleCosts p month
            (handleMonthlyInvestment p month (januaryResetStep p month st)))))))).portfolio ∧
    InvC6 (simuliereMonat p dyn infl month st) ∧
    0 ≤ sumValues (simuliereMonat p dyn infl month st).portfolio := by
  obtain ⟨hv, hstk, ha0, ha1, ht, hs, hts, htf0, htf1, hr0, hr1, hjahr, hadj, hdyn, hsb, hrb⟩ := hp
  obtain ⟨hlots, htopf, hmi⟩ := hinv
  obtain ⟨e0p, e0m⟩ := januaryResetStep_frame p month st
  have h0topf : 0 ≤ (januaryResetStep p month st).freistellungs_topf := by
    simp only [januaryResetStep]
    split_ifs
    · exact mul_nonneg hjahr (pow_nonneg hadj _)
    · exact htopf
  have hlots0 : ∀ lot ∈ (januaryResetStep p month st).portfolio,
      0 ≤ lot.value ∧ 0 ≤ lot.start_of_prev_year_value := by
    rw [e0p]
    exact hlots
  have hmi0 : 0 ≤ (januaryResetStep p month st).monthly_investment := by
    rw [e0m]
    exact hmi
  -- stage 1: deposits
  obtain ⟨e1p, e1m⟩ := handleDynamik_inv p month (januaryResetStep p month st) hdyn hmi0
  have hlots1a : ∀ lot ∈ (handleDynamik p month (januaryResetStep p month st)).portfolio,
      0 ≤ lot.value ∧ 0 ≤ lot.start_of_prev_year_value := by
    rw [e1p]
    exact hlots0
  obtain ⟨hlots1b, e2m⟩ := handleSonderzahlung_inv p month _ ha0 ha1 hlots1a
  have hmi1b : 0 ≤ (handleSonderzahlung p month (handleDynamik p month
      (januaryResetStep p month st))).monthly_investment := by
    rw [e2m]
    exact e1m
  obtain ⟨hlots1, e3m⟩ := handleSparrate_inv p month _ ha0 ha1 hmi1b hlots1b
  have hlots1' : ∀ lot ∈ (handleMonthlyInvestment p month (januaryResetStep p month st)).portfolio,
      0 ≤ lot.value ∧ 0 ≤ lot.start_of_prev_year_value := hlots1
  -- stage 2: fees
  obtain ⟨hlots2, e4m⟩ := handleCosts_inv p month _ hv hstk ht hs hts hlots1'
  -- stage 3: growth
  have hlots3 : ∀ lot ∈ (applyMonthlyGrowthStep p dyn month (handleCosts p month
      (handleMonthlyInvestment p month (januaryResetStep p month st)))).portfolio,
      0 ≤ lot.value ∧ 0 ≤ lot.start_of_prev_year_value :=
    applyGrowth_inv _ hret _ hlots2
  -- stage 4: inflation (ledger untouched)
  have hlots4 : ∀ lot ∈ (applyInflationStep infl month (applyMonthlyGrowthStep p dyn month
      (handleCosts p month (handleMonthlyInvestment p month
        (januaryResetStep p month st))))).portfolio,
      0 ≤ lot.value ∧ 0 ≤ lot.start_of_prev_year_value := hlots3
  -- the bucket before taxes equals the bucket right after the reset
  have htopf4 : 0 ≤ (applyInflationStep infl month (applyMonthlyGrowthStep p dyn month
      (handleCosts p month (handleMonthlyInvestment p month
        (januaryResetStep p month st))))).freistellungs_topf := by
    show 0 ≤ (handleCosts p month (handleMonthlyInvestment p month
      (januaryResetStep p month st))).freistellungs_topf
    rw [handleCosts_topf, handleMonthlyInvestment_topf]
    exact h0topf
  -- stage 5: accrual tax
  have hlots5 := handleTaxes_inv p month _ htf0 htf1 hr0 hr1 htopf4 hlots4
  -- stage 6: rebalancing
  have hlots6 := handleRebalancing_inv p month _ hlots5
  -- stage 7: withdrawals
  have hlots7 := handleWithdrawals_inv p month _ hlots6
  -- log row and December snapshot
  have hlots8 : ∀ lot ∈ (simuliereMonat p dyn infl month st).portfolio,
      0 ≤ lot.value ∧ 0 ≤ lot.start_of_prev_year_value := by
    simp only [simuliereMonat, decemberSnapshotStep]
    split_ifs
    · exact snapshotYearEnd_inv _ hlots7
    · exact hlots7
  have htopf8 : 0 ≤ (simuliereMonat p dyn infl month st).freistellungs_topf :=
    (C5_allowance_bucket p dyn infl month st htopf hjahr hadj).1
  have hmi8 : 0 ≤ (simuliereMonat p dyn infl month st).monthly_investment := by
    have hd : ∀ s : SimState, (decemberSnapshotStep month s).monthly_investment
        = s.monthly_investment := by
      intro s
      simp only [decemberSnapshotStep]
      split <;> rfl
    simp only [simuliereMonat, hd]
    show 0 ≤ (handleWithdrawals p month (handleRebalancing p month (handleTaxes p month
      (applyInflationStep infl month (applyMonthlyGrowthStep p dyn month (handleCosts p month
        (handleMonthlyInvestment p month (januaryResetStep p month st)))))))).monthly_investment
    rw [handleWithdrawals_mi, handleRebalancing_mi, handleTaxes_mi]
    show 0 ≤ (handleCosts p month (handleMonthlyInvestment p month
      (januaryResetStep p month st))).monthly_investment
    rw [e4m]
    show 0 ≤ (handleSparrate p month (handleSonderzahlung p month (handleDynamik p month
      (januaryResetStep p month st)))).monthly_investment
    rw [e3m, e2m]
    exact e1m
  exact ⟨sumValues_nonneg _ hlots1', sumValues_nonneg _ hlots2, sumValues_nonneg _ hlots3,
    sumValues_nonneg _ hlots5, sumValues_nonneg _ hlots6, sumValues_nonneg _ hlots7,
    ⟨hlots8, htopf8, hmi8⟩, sumValues_nonneg _ hlots8⟩

/-- Witness for C6 on the base Depot scenario in month 0. -/
theorem C6_portfolio_sum_nonneg_witness :
    0 ≤ sumValues (simuliereMonat baseParams none (fun _ => 0) 0 (initStateRaw baseParams)).portfolio := by
  have h := C6_portfolio_sum_nonneg baseParams none (fun _ => 0) 0 (initStateRaw baseParams)
    (by norm_num [SaneDepot, baseParams]) (by norm_num [baseParams])
    (by refine ⟨?_, ?_, ?_⟩ <;> norm_num [initStateRaw, baseParams])
  exact h.2.2.2.2.2.2.2

/-- Peeling one element off a map over `range (n+1)`. -/
theorem range_map_succ {α : Type} (n : ℕ) (f : ℕ → α) :
    (List.range (n + 1)).map f = f 0 :: (List.range n).map (fun k => f (k + 1)) := by
  rw [List.range_succ_eq_map, List.map_cons, List.map_map]
  rfl

/-- Unfolding equation of `rolling3` on a list with at least 3 entries. -/
theorem rolling3_cons (a b c : ℤ × ℚ) (rest : List (ℤ × ℚ)) :
    rolling3 (a :: b :: c :: rest)
      = (c.1, (1 + a.2) * (1 + b.2) * (1 + c.2) - 1) :: rolling3 (b :: c :: rest) := rfl

/-- `rolling3` over an indexed family of labelled values. -/
theorem rolling3_map_range (n : ℕ) : ∀ f : ℕ → ℤ × ℚ,
    rolling3 ((List.range n).map f) = (List.range (n - 2)).map (fun j =>
      ((f (j + 2)).1, (1 + (f j).2) * (1 + (f (j + 1)).2) * (1 + (f (j + 2)).2) - 1)) := by
  induction n with
  | zero => intro f; rfl
  | succ m ih =>
    cases m with
    | zero => intro f; rfl
    | succ m' =>
      cases m' with
      | zero => intro f; rfl
      | succ k =>
        intro f
        show rolling3 ((List.range (k + 3)).map f)
          = (List.range (k + 1)).map (fun j =>
            ((f (j + 2)).1, (1 + (f j).2) * (1 + (f (j + 1)).2) * (1 + (f (j + 2)).2) - 1))
        have e3 : (List.range (k + 3)).map f
            = f 0 :: f 1 :: f 2 :: (List.range k).map (fun j => f (j + 3)) := by
          simp only [range_map_succ]
        have e2 : (List.range (k + 2)).map (fun j => f (j + 1))
            = f 1 :: f 2 :: (List.range k).map (fun j => f (j + 3)) := by
          simp only [range_map_succ]
        rw [e3, rolling3_cons, ← e2, ih (fun j => f (j + 1)), range_map_succ]
        rfl

/-- The pair returned by `idxminQ` is an element of the list. -/
theorem idxminQ_mem (l : List (ℤ × ℚ)) : ∀ m : ℤ × ℚ, idxminQ l = some m → m ∈ l := by
  induction l with
  | nil => intro m h; simp [idxminQ] at h
  | cons e rest ih =>
    intro m h
    simp only [idxminQ] at h
    cases hr : idxminQ rest with
    | none =>
      rw [hr] at h
      injection h with h
      rw [← h]
      exact List.mem_cons_self e rest
    | some mm =>
      simp only [hr] at h
      by_cases hc : mm.2 < e.2
      · rw [if_pos hc] at h
        injection h with h
        rw [← h]
        exact List.mem_cons_of_mem e (ih mm hr)
      · rw [if_neg hc] at h
        injection h with h
        rw [← h]
        exact List.mem_cons_self e rest

/-- Unfolding equation of `idxminQ` on a nonempty list. -/
theorem idxminQ_cons (e : ℤ × ℚ) (rest : List (ℤ × ℚ)) :
    idxminQ (e :: rest) = match idxminQ rest with
      | none => some e
      | some m => if m.2 < e.2 then some m else some e := rfl

/-- On an indexed family with a unique strict minimum at position `i`,
`idxminQ` returns exactly the pair at position `i`. -/
theorem idxminQ_map_range (m : ℕ) : ∀ (g : ℕ → ℤ × ℚ) (i : ℕ), i < m →
    (∀ j, j < m → j ≠ i → (g i).2 < (g j).2) →
    idxminQ ((List.range m).map g) = some (g i) := by
  induction m with
  | zero => intro g i hi _; exact absurd hi (Nat.not_lt_zero i)
  | succ m ih =>
    intro g i hi hmin
    rw [range_map_succ, idxminQ_cons]
    cases i with
    | zero =>
      cases hr : idxminQ ((List.range m).map (fun k => g (k + 1))) with
      | none => rfl
      | some mm =>
        have hm : mm ∈ (List.range m).map (fun k => g (k + 1)) := idxminQ_mem _ mm hr
        obtain ⟨k, hk, hkeq⟩ := List.mem_map.mp hm
        have hk' : k < m := List.mem_range.mp hk
        have hlt : (g 0).2 < mm.2 := by
          rw [← hkeq]
          exact hmin (k + 1) (Nat.succ_lt_succ hk') (Nat.succ_ne_zero k)
        dsimp only
        rw [if_neg (not_lt.mpr (le_of_lt hlt))]
    | succ i' =>
      have hrec := ih (fun k => g (k + 1)) i' (Nat.lt_of_succ_lt_succ hi)
        (fun j hj hne => hmin (j + 1) (Nat.succ_lt_succ hj)
          (fun hc => hne (Nat.succ_injective hc)))
      rw [hrec]
      have hlt : (g (i' + 1)).2 < (g 0).2 :=
        hmin 0 (Nat.succ_pos m) (fun hc => Nat.succ_ne_zero i' hc.symm)
      dsimp only
      rw [if_pos hlt]

/-- `returnsByYear` when the year keys are known. -/
theorem returnsByYear_keys (s : List (ℤ × ℚ)) (n : ℕ) (y0 : ℤ)
    (hkeys : sortedKeys s = (List.range n).map (fun k : ℕ => y0 + (k : ℤ))) :
    returnsByYear s
      = (List.range n).map (fun k : ℕ => (y0 + (k : ℤ), yearReturn s (y0 + (k : ℤ)))) := by
  rw [returnsByYear, hkeys, List.map_map]
  rfl

/-- C9: on a monthly-return series whose calendar years are the
consecutive range `y0, …, y0 + n - 1` and whose rolling 3-year
compounded returns have a unique strict minimum at the window starting
in year `y0 + i`, `get_worst_3_years` returns exactly the monthly
returns of those 3 calendar years, the start year `y0 + i` of the
minimal window, and the window's compounded return. -/
theorem C9_worst_3_years (s : List (ℤ × ℚ)) (n : ℕ) (y0 : ℤ) (i : ℕ)
    (hkeys : sortedKeys s = (List.range n).map (fun k : ℕ => y0 + (k : ℤ)))
    (hi : i < n - 2)
    (hmin : ∀ j, j < n - 2 → j ≠ i →
      specWindow3 s (y0 + (i : ℤ)) < specWindow3 s (y0 + (j : ℤ))) :
    get_worst_3_years s
      = some (s.filter (fun e =>
            decide (y0 + (i : ℤ) ≤ e.1) && decide (e.1 < y0 + (i : ℤ) + 3)),
          y0 + (i : ℤ), specWindow3 s (y0 + (i : ℤ))) := by
  have hroll : rolling3 (returnsByYear s)
      = (List.range (n - 2)).map (fun j : ℕ =>
          (y0 + (j : ℤ) + 2, specWindow3 s (y0 + (j : ℤ)))) := by
    rw [returnsByYear_keys s n y0 hkeys, rolling3_map_range n]
    apply List.map_congr_left
    intro j hj
    simp only [specWindow3]
    push_cast
    simp only [← add_assoc]
  have hidx : idxminQ (rolling3 (returnsByYear s))
      = some (y0 + (i : ℤ) + 2, specWindow3 s (y0 + (i : ℤ))) := by
    rw [hroll]
    exact idxminQ_map_range (n - 2)
      (fun j : ℕ => (y0 + (j : ℤ) + 2, specWindow3 s (y0 + (j : ℤ)))) i hi hmin
  rw [get_worst_3_years, hidx]
  have hst : y0 + (i : ℤ) + 2 - 2 = y0 + (i : ℤ) := by ring
  dsimp only
  rw [hst]

/-- Witness for C9: four years 2000-2003 with yearly returns 0, -50%, 0,
+100%; the unique worst window is 2000-2002 with compounded return -50%. -/
theorem C9_worst_3_years_witness :
    get_worst_3_years sW9
      = some ([((2000 : ℤ), (0 : ℚ)), (2001, -(1/2)), (2002, 0)], 2000, -(1/2)) := by
  have h := C9_worst_3_years sW9 4 2000 0 (by decide) (by norm_num) (by
    intro j hj hne
    interval_cases j
    · exact absurd rfl hne
    · norm_num [specWindow3, yearReturn, sW9, List.filter])
  rw [h]
  norm_num [sW9, List.filter, specWindow3, yearReturn]
